import Mathlib

/-! # Lifecycle core of the Mysterium node: shutdown, reconnect watcher, quality sender

A shallow embedding of `cmd/di.go` (the `Dependencies` container: `Shutdown`,
`handleConnStateChange`) and of `core/quality/sender.go` (the metrics `Sender`).

Conventions of the embedding.

* A nilable Go handle (pointer or interface value) is an `Option Handle`;
  `nil` is `none`.
* A Go `error` result is an `Option Error`; `nil` is `none`.
* Calls into collaborators whose code is outside the two files are recorded in
  a trace, in program order; what such a call returns is an explicit argument
  of the embedded function (an outcome record), so every theorem quantifies
  over all behaviours of the collaborators.
* Log lines written through zerolog are recorded in a list, in program order.
-/

namespace Mysterium

/-! ## Common data -/

/-- A non-nil Go `error`; `msg` is what `Error()` returns. -/
structure Error where
  msg : String
deriving DecidableEq, Repr

/-- The zerolog levels used by the two files. -/
inductive LogLevel where
  | info
  | warn
  | error
deriving DecidableEq, Repr

/-- One log line: level, the error attached by `.Err(err)` (if any), message. -/
structure LogEntry where
  level : LogLevel
  err : Option Error
  msg : String
deriving DecidableEq, Repr

/-- A populated handle: the identity of the component it points to. -/
structure Handle where
  addr : Nat
deriving DecidableEq, Repr

/-- The three fields of `metadata.NetworkDefinition` that `cmd/di.go` reads and writes. -/
structure NetworkDefinition where
  MysteriumAPIAddress : String
  BrokerAddress : String
  EtherClientRPC : String
deriving DecidableEq, Repr

/-! ## The dependency container (`cmd/di.go`, `type Dependencies struct`) -/

/-- The DI container for top level components. Every field of the Go struct,
in declaration order; all but `NetworkDefinition` are nilable handles. -/
structure Dependencies where
  Node : Option Handle
  HTTPClient : Option Handle
  NetworkDefinition : NetworkDefinition
  MysteriumAPI : Option Handle
  EtherClient : Option Handle
  BrokerConnector : Option Handle
  BrokerConnection : Option Handle
  NATService : Option Handle
  Storage : Option Handle
  Keystore : Option Handle
  IdentityManager : Option Handle
  SignerFactory : Option Handle
  IdentityRegistry : Option Handle
  IdentitySelector : Option Handle
  DiscoveryFactory : Option Handle
  ProposalRepository : Option Handle
  DiscoveryWorker : Option Handle
  QualityClient : Option Handle
  IPResolver : Option Handle
  LocationResolver : Option Handle
  PolicyOracle : Option Handle
  StatisticsReporter : Option Handle
  SessionStorage : Option Handle
  SessionConnectivityStatusStorage : Option Handle
  EventBus : Option Handle
  ConnectionManager : Option Handle
  ConnectionRegistry : Option Handle
  ServicesManager : Option Handle
  ServiceRegistry : Option Handle
  ServiceSessionStorage : Option Handle
  ServiceFirewall : Option Handle
  NATPinger : Option Handle
  NATTracker : Option Handle
  PortPool : Option Handle
  PortMapper : Option Handle
  StateKeeper : Option Handle
  P2PDialer : Option Handle
  P2PListener : Option Handle
  Authenticator : Option Handle
  JWTAuthenticator : Option Handle
  UIServer : Option Handle
  Transactor : Option Handle
  BCHelper : Option Handle
  ProviderRegistrar : Option Handle
  LogCollector : Option Handle
  Reporter : Option Handle
  ProviderInvoiceStorage : Option Handle
  ConsumerTotalsStorage : Option Handle
  AccountantPromiseStorage : Option Handle
  ConsumerBalanceTracker : Option Handle
  AccountantPromiseSettler : Option Handle
  AccountantCaller : Option Handle
  ChannelAddressCalculator : Option Handle
deriving DecidableEq, Repr

/-- The zero value of `Dependencies`: every handle nil, every string empty.
This is the container before `Bootstrap` has run. -/
def Dependencies.empty : Dependencies where
  Node := none
  HTTPClient := none
  NetworkDefinition := ⟨"", "", ""⟩
  MysteriumAPI := none
  EtherClient := none
  BrokerConnector := none
  BrokerConnection := none
  NATService := none
  Storage := none
  Keystore := none
  IdentityManager := none
  SignerFactory := none
  IdentityRegistry := none
  IdentitySelector := none
  DiscoveryFactory := none
  ProposalRepository := none
  DiscoveryWorker := none
  QualityClient := none
  IPResolver := none
  LocationResolver := none
  PolicyOracle := none
  StatisticsReporter := none
  SessionStorage := none
  SessionConnectivityStatusStorage := none
  EventBus := none
  ConnectionManager := none
  ConnectionRegistry := none
  ServicesManager := none
  ServiceRegistry := none
  ServiceSessionStorage := none
  ServiceFirewall := none
  NATPinger := none
  NATTracker := none
  PortPool := none
  PortMapper := none
  StateKeeper := none
  P2PDialer := none
  P2PListener := none
  Authenticator := none
  JWTAuthenticator := none
  UIServer := none
  Transactor := none
  BCHelper := none
  ProviderRegistrar := none
  LogCollector := none
  Reporter := none
  ProviderInvoiceStorage := none
  ConsumerTotalsStorage := none
  AccountantPromiseStorage := none
  ConsumerBalanceTracker := none
  AccountantPromiseSettler := none
  AccountantCaller := none
  ChannelAddressCalculator := none

/-! ## `Dependencies.Shutdown` -/

/-- The collaborator calls `Shutdown` can make, one constructor per call site. -/
inductive TeardownCall where
  | ServicesManagerKill
  | PolicyOracleStop
  | NATServiceDisable
  | DiscoveryWorkerStop
  | BrokerConnectionClose
  | QualityClientStop
  | ServiceFirewallTeardown
  | firewallReset
  | NodeKill
  | StorageClose
deriving DecidableEq, Repr

/-- What each of the four error-returning teardown calls returns if it is made
during one run of `Shutdown` (`none` is a nil error). -/
structure TeardownOutcomes where
  ServicesManagerKill : Option Error
  NATServiceDisable : Option Error
  NodeKill : Option Error
  StorageClose : Option Error
deriving DecidableEq, Repr

/-- The locals of `Shutdown` while its body runs: the slice `errs` and the
trace of collaborator calls made so far. -/
structure ShutdownState where
  errs : List Error
  calls : List TeardownCall
deriving DecidableEq, Repr

/-- A guarded block `if err := X(); err != nil { errs = append(errs, err) }`:
the call is made, and its error, when non-nil, is appended to `errs`. -/
def ShutdownState.callCollecting (st : ShutdownState) (c : TeardownCall)
    (result : Option Error) : ShutdownState :=
  match result with
  | some err => { errs := st.errs ++ [err], calls := st.calls ++ [c] }
  | none => { errs := st.errs, calls := st.calls ++ [c] }

/-- A call whose Go signature returns nothing (`Stop()`, `Close()`,
`Teardown()`, `firewall.Reset()`), or whose result is dropped. -/
def ShutdownState.callVoid (st : ShutdownState) (c : TeardownCall) : ShutdownState :=
  { errs := st.errs, calls := st.calls ++ [c] }

/-- The log line the deferred function of `Shutdown` writes for one collected error. -/
def shutdownFailedLog (e : Error) : LogEntry :=
  { level := LogLevel.error, err := some e, msg := "Dependencies shutdown failed" }

/-- The deferred function of `Shutdown`: `for i := range errs`, log `errs[i]`
and, if the named result `err` is still nil, set it to `errs[i]`.
The accumulator is (log lines written, current value of `err`). -/
def shutdownDeferred (errs : List Error) (err : Option Error) :
    List LogEntry × Option Error :=
  errs.foldl
    (fun acc e =>
      (acc.1 ++ [shutdownFailedLog e],
       match acc.2 with
       | none => some e
       | some prev => some prev))
    ([], err)

/-- Everything observable of one run of `Shutdown`: the container afterwards,
the collaborator calls made, the lines logged, and the returned error. -/
structure ShutdownResult where
  di : Dependencies
  calls : List TeardownCall
  logs : List LogEntry
  err : Option Error
deriving DecidableEq, Repr

/-- The body of `Shutdown` up to its `return nil`: the guarded teardown blocks
in source order. No field of the container is assigned anywhere in it. -/
def shutdownBody (out : TeardownOutcomes) (di : Dependencies) : ShutdownState :=
  let st : ShutdownState := { errs := [], calls := [] }
  let st := if di.ServicesManager.isSome then
      st.callCollecting TeardownCall.ServicesManagerKill out.ServicesManagerKill else st
  let st := if di.PolicyOracle.isSome then
      st.callVoid TeardownCall.PolicyOracleStop else st
  let st := if di.NATService.isSome then
      st.callCollecting TeardownCall.NATServiceDisable out.NATServiceDisable else st
  let st := if di.DiscoveryWorker.isSome then
      st.callVoid TeardownCall.DiscoveryWorkerStop else st
  let st := if di.BrokerConnection.isSome then
      st.callVoid TeardownCall.BrokerConnectionClose else st
  let st := if di.QualityClient.isSome then
      st.callVoid TeardownCall.QualityClientStop else st
  let st := if di.ServiceFirewall.isSome then
      st.callVoid TeardownCall.ServiceFirewallTeardown else st
  let st := st.callVoid TeardownCall.firewallReset
  let st := if di.Node.isSome then
      st.callCollecting TeardownCall.NodeKill out.NodeKill else st
  let st := if di.Storage.isSome then
      st.callCollecting TeardownCall.StorageClose out.StorageClose else st
  st

/-- `func (di *Dependencies) Shutdown() (err error)`: the body runs, `return nil`
sets the named result to nil, then the deferred function runs over `errs` and
may overwrite the named result. The container is returned as it was passed:
the function assigns none of its fields. -/
def Shutdown (out : TeardownOutcomes) (di : Dependencies) : ShutdownResult :=
  let st := shutdownBody out di
  let fin := shutdownDeferred st.errs none
  { di := di, calls := st.calls, logs := fin.1, err := fin.2 }

/-! ## Connection events (`core/connection`, declared outside the two files) -/

/-- Modelled from the spec: the declaration of `connection.State` is outside
the sources; the spec gives the enumeration NotConnected, Connecting,
Connected, Disconnecting. -/
inductive State where
  | NotConnected
  | Connecting
  | Connected
  | Disconnecting
deriving DecidableEq, Repr

/-- Modelled from the spec: the Go conversion `string(e.State)`; the type is a
string type whose constants are declared outside the sources, each rendered
here by its name. -/
def State.toString : State → String
  | State.NotConnected => "NotConnected"
  | State.Connecting => "Connecting"
  | State.Connected => "Connected"
  | State.Disconnecting => "Disconnecting"

/-- The part of `market.Location` the sender reads. -/
structure Location where
  Country : String
deriving DecidableEq, Repr

/-- The part of a proposal's `ServiceDefinition` the sender reads. -/
structure ServiceDefinition where
  location : Location
deriving DecidableEq, Repr

/-- The Go method `ServiceDefinition.GetLocation()`. -/
def ServiceDefinition.GetLocation (sd : ServiceDefinition) : Location := sd.location

/-- The fields of `market.ServiceProposal` the sender reads. -/
structure ServiceProposal where
  ProviderID : String
  ServiceType : String
  ServiceDefinition : ServiceDefinition
deriving DecidableEq, Repr

/-- The part of `identity.Identity` the sender reads. -/
structure Identity where
  Address : String
deriving DecidableEq, Repr

/-- Modelled from the spec: `connection.SessionInfo` is declared outside the
sources. It carries the identifiers the sender copies, and the mark by which
"the source event explicitly marks" its session as active, read by `IsActive`. -/
structure SessionInfo where
  SessionID : String
  ConsumerID : Identity
  Proposal : ServiceProposal
  active : Bool
deriving DecidableEq, Repr

/-- Modelled from the spec: the method `SessionInfo.IsActive()`, declared
outside the sources; a session is active only if the event marks it so. -/
def SessionInfo.IsActive (s : SessionInfo) : Bool := s.active

/-- The event `connection.AppEventConnectionState`: the fields both files read. -/
structure AppEventConnectionState where
  State : State
  SessionInfo : SessionInfo
deriving DecidableEq, Repr

/-- The event `connection.AppEventConnectionSession`: the fields the sender reads. -/
structure AppEventConnectionSession where
  Status : String
  SessionInfo : SessionInfo
deriving DecidableEq, Repr

/-- The byte counters of a statistics event (Go `uint64`, only copied). -/
structure Statistics where
  BytesReceived : Nat
  BytesSent : Nat
deriving DecidableEq, Repr

/-- The event `connection.AppEventConnectionStatistics`: the fields the sender reads. -/
structure AppEventConnectionStatistics where
  Stats : Statistics
  SessionInfo : SessionInfo
deriving DecidableEq, Repr

/-- The node event `event.Payload`: the field the sender reads. -/
structure Payload where
  Status : String
deriving DecidableEq, Repr

/-! ## The reconnect watcher (`Dependencies.handleConnStateChange`) -/

/-- The collaborator calls the watcher's handler can make. -/
inductive ReconnectCall where
  | HTTPClientReconnect
  | QualityClientReconnect
  | BrokerConnectorReconnectAll
  | EtherClientReconnect
deriving DecidableEq, Repr

/-- Everything observable of one invocation of the handler: the captured
variable `latestState` afterwards, the calls made, the lines logged. -/
structure HandlerResult where
  latestState : State
  calls : List ReconnectCall
  logs : List LogEntry
deriving DecidableEq, Repr

/-- The closure subscribed by `handleConnStateChange`, as a step function on the
captured variable `latestState`. `etherReconnect` is what
`di.EtherClient.Reconnect()` returns if the handler calls it. -/
def connStateHandler (etherReconnect : Option Error) (latestState : State)
    (e : AppEventConnectionState) : HandlerResult :=
  -- Here we care only about connected and disconnected events.
  if e.State ≠ State.Connected ∧ e.State ≠ State.NotConnected then
    { latestState := latestState, calls := [], logs := [] }
  else
    let isDisconnected := latestState == State.Connected && e.State == State.NotConnected
    let isConnected := latestState == State.NotConnected && e.State == State.Connected
    if isDisconnected || isConnected then
      { latestState := e.State,
        calls := [ReconnectCall.HTTPClientReconnect, ReconnectCall.QualityClientReconnect,
                  ReconnectCall.BrokerConnectorReconnectAll, ReconnectCall.EtherClientReconnect],
        logs :=
          { level := LogLevel.info, err := none,
            msg := "Reconnecting HTTP clients due to VPN connection state change" } ::
          (match etherReconnect with
           | some _ =>
             [{ level := LogLevel.error, err := none,
                msg := "Ethereum client failed to reconnect" }]
           | none => []) }
    else
      { latestState := e.State, calls := [], logs := [] }

/-- `func (di *Dependencies) handleConnStateChange() error`: fails when
`di.HTTPClient` is nil, otherwise returns what `EventBus.Subscribe` returns
(`subscribe`); on success the handler is registered with `latestState`
initialised to `connection.NotConnected`, the value returned here. -/
def handleConnStateChange (di : Dependencies) (subscribe : Option Error) :
    Except Error State :=
  if di.HTTPClient.isNone then
    Except.error { msg := "HTTPClient is not initialized" }
  else
    let latestState := State.NotConnected
    match subscribe with
    | some err => Except.error err
    | none => Except.ok latestState

/-- One delivery of a connectivity event to the handler, with what
`EtherClient.Reconnect` returns if it is called during that delivery. -/
structure Delivery where
  event : AppEventConnectionState
  etherReconnect : Option Error
deriving DecidableEq, Repr

/-- The handler run on a sequence of deliveries, one after the other, the
captured `latestState` threaded through; one result per observation. -/
def feed (latestState : State) : List Delivery → List HandlerResult
  | [] => []
  | d :: ds =>
    let r := connStateHandler d.etherReconnect latestState d.event
    r :: feed r.latestState ds

/-- The four reconnect calls of one fan-out, in source order. -/
def reconnectFanOut : List ReconnectCall :=
  [ReconnectCall.HTTPClientReconnect, ReconnectCall.QualityClientReconnect,
   ReconnectCall.BrokerConnectorReconnectAll, ReconnectCall.EtherClientReconnect]

/-- The calls made at each observation of a sequence fed to a handler freshly
registered by `handleConnStateChange` (tracked state `NotConnected`). -/
def watcherCalls (ds : List Delivery) : List (List ReconnectCall) :=
  (feed State.NotConnected ds).map (fun r => r.calls)

/-- A delivery of state `s` with an arbitrary session and a succeeding `EtherClient`. -/
def Delivery.ofState (s : State) : Delivery :=
  { event := { State := s,
               SessionInfo := { SessionID := "", ConsumerID := { Address := "" },
                                Proposal := { ProviderID := "", ServiceType := "",
                                              ServiceDefinition := { location := { Country := "" } } },
                                active := false } },
    etherReconnect := none }

/-- Specification side of the watcher: the states that count for edge
detection are Connected and NotConnected. -/
def State.isConnectedOrNotConnected (s : State) : Bool :=
  s == State.Connected || s == State.NotConnected

/-- Specification side of the watcher: the most recent Connected/NotConnected
observation among the earlier ones, NotConnected when there is none. -/
def mostRecentConnectedOrNot (earlier : List State) : State :=
  (earlier.reverse.find? State.isConnectedOrNotConnected).getD State.NotConnected

/-- Specification side of the watcher: an observation of state `s` coming after
the observations `earlier` triggers a fan-out. -/
def specTriggers (earlier : List State) (s : State) : Bool :=
  s.isConnectedOrNotConnected && s != mostRecentConnectedOrNot earlier

/-! ## The quality sender (`core/quality/sender.go`) -/

/-- The constant `appName`. -/
def appName : String := "myst"

/-- The constant `sessionDataName`. -/
def sessionDataName : String := "session_data"

/-- The constant `sessionEventName`. -/
def sessionEventName : String := "session_event"

/-- The constant `startupEventName`. -/
def startupEventName : String := "startup"

/-- The constant `proposalEventName`. -/
def proposalEventName : String := "proposal_event"

/-- The constant `natMappingEventName`. -/
def natMappingEventName : String := "nat_mapping"

/-- The struct `appInfo`. -/
structure appInfo where
  Name : String
  Version : String
  OS : String
  Arch : String
deriving DecidableEq, Repr

/-- A gateway descriptor, Go `map[string]string`, as its list of entries. -/
abbrev Gateway := List (String × String)

/-- The struct `natMappingContext`; `ErrorMessage` is a nilable `*string`. -/
structure natMappingContext where
  Stage : String
  Successful : Bool
  ErrorMessage : Option String
  Gateways : List Gateway
deriving DecidableEq, Repr

/-- The struct `sessionContext`. -/
structure sessionContext where
  ID : String
  Consumer : String
  Provider : String
  ServiceType : String
  ProviderCountry : String
  ConsumerCountry : String
deriving DecidableEq, Repr

/-- The struct `sessionEventContext` (it embeds `sessionContext`). -/
structure sessionEventContext where
  Event : String
  sessionContext : sessionContext
deriving DecidableEq, Repr

/-- The struct `sessionDataContext` (it embeds `sessionContext`). -/
structure sessionDataContext where
  Rx : Nat
  Tx : Nat
  sessionContext : sessionContext
deriving DecidableEq, Repr

/-- The values the sender stores in the `interface{}` field `Event.Context`,
one constructor per dynamic type. -/
inductive Context where
  | sessionData (c : sessionDataContext)
  | sessionEvent (c : sessionEventContext)
  | nodeStatus (status : String)
  | proposal (p : ServiceProposal)
  | natMapping (c : natMappingContext)
deriving DecidableEq, Repr

/-- The struct `Event`: the envelope handed to the transport. -/
structure Event where
  Application : appInfo
  EventName : String
  CreatedAt : Int
  Context : Context
deriving DecidableEq, Repr

/-- The interface `Transport`: `SendEvent(Event) error`. -/
structure Transport where
  SendEvent : Event → Option Error

/-- The part of the origin returned by `location.OriginResolver.GetOrigin` that
the sender reads. -/
structure Origin where
  Country : String
deriving DecidableEq, Repr

/-- The interface `location.OriginResolver`: `GetOrigin()` returns an origin
together with an error, as Go returns both. -/
structure OriginResolver where
  GetOrigin : Origin × Option Error

/-- The struct `Sender`. -/
structure Sender where
  Transport : Transport
  AppVersion : String
  connection : Handle
  location : OriginResolver

/-- `NewSender` creates a metrics sender with the given transport. -/
def NewSender (transport : Transport) (appVersion : String) (manager : Handle)
    (locationResolver : OriginResolver) : Sender :=
  { Transport := transport, AppVersion := appVersion, connection := manager,
    location := locationResolver }

/-- What the sender reads from the Go runtime during one call: the constants
`runtime.GOOS` and `runtime.GOARCH`, and `time.Now().Unix()` at the moment
`sendEvent` builds the envelope. -/
structure Runtime where
  GOOS : String
  GOARCH : String
  nowUnix : Int
deriving DecidableEq, Repr

/-- Everything observable of one call of a sender method: the envelopes passed
to `Transport.SendEvent`, and the lines logged, each in program order. The Go
methods return nothing. -/
structure SenderEffects where
  sent : List Event
  logs : List LogEntry
deriving DecidableEq, Repr

/-- `func (sender *Sender) sendEvent(eventName string, context interface{})`. -/
def Sender.sendEvent (sender : Sender) (rt : Runtime) (eventName : String)
    (context : Context) : SenderEffects :=
  let ev : Event :=
    { Application := { Name := appName, OS := rt.GOOS, Arch := rt.GOARCH,
                       Version := sender.AppVersion },
      EventName := eventName,
      CreatedAt := rt.nowUnix,
      Context := context }
  match sender.Transport.SendEvent ev with
  | some err =>
    { sent := [ev],
      logs := [{ level := LogLevel.warn, err := some err,
                 msg := "Failed to send metric: " ++ eventName }] }
  | none => { sent := [ev], logs := [] }

/-- `func (sender *Sender) originCountry() string`, with the lines it logs. -/
def Sender.originCountry (sender : Sender) : String × List LogEntry :=
  match sender.location.GetOrigin with
  | (_, some _) =>
    ("", [{ level := LogLevel.warn, err := none,
            msg := "Failed to get consumer origin country" }])
  | (origin, none) => (origin.Country, [])

/-- `sendSessionData` sends transferred information about session. The argument
`sender.originCountry()` is evaluated before `sendEvent` is entered. -/
def Sender.sendSessionData (sender : Sender) (rt : Runtime)
    (e : AppEventConnectionStatistics) : SenderEffects :=
  if !e.SessionInfo.IsActive then
    { sent := [], logs := [] }
  else
    let currentSession := e.SessionInfo
    let country := sender.originCountry
    let out := sender.sendEvent rt sessionDataName
      (Context.sessionData
        { Rx := e.Stats.BytesReceived,
          Tx := e.Stats.BytesSent,
          sessionContext :=
            { ID := currentSession.SessionID,
              Consumer := currentSession.ConsumerID.Address,
              Provider := currentSession.Proposal.ProviderID,
              ServiceType := currentSession.Proposal.ServiceType,
              ProviderCountry := currentSession.Proposal.ServiceDefinition.GetLocation.Country,
              ConsumerCountry := country.1 } })
    { sent := out.sent, logs := country.2 ++ out.logs }

/-- `sendConnStateEvent` sends session update events. -/
def Sender.sendConnStateEvent (sender : Sender) (rt : Runtime)
    (e : AppEventConnectionState) : SenderEffects :=
  if !e.SessionInfo.IsActive then
    { sent := [], logs := [] }
  else
    let country := sender.originCountry
    let out := sender.sendEvent rt sessionEventName
      (Context.sessionEvent
        { Event := e.State.toString,
          sessionContext :=
            { ID := e.SessionInfo.SessionID,
              Consumer := e.SessionInfo.ConsumerID.Address,
              Provider := e.SessionInfo.Proposal.ProviderID,
              ServiceType := e.SessionInfo.Proposal.ServiceType,
              ProviderCountry := e.SessionInfo.Proposal.ServiceDefinition.GetLocation.Country,
              ConsumerCountry := country.1 } })
    { sent := out.sent, logs := country.2 ++ out.logs }

/-- `sendSessionEvent` sends session update events. -/
def Sender.sendSessionEvent (sender : Sender) (rt : Runtime)
    (e : AppEventConnectionSession) : SenderEffects :=
  if !e.SessionInfo.IsActive then
    { sent := [], logs := [] }
  else
    let country := sender.originCountry
    let out := sender.sendEvent rt sessionEventName
      (Context.sessionEvent
        { Event := e.Status,
          sessionContext :=
            { ID := e.SessionInfo.SessionID,
              Consumer := e.SessionInfo.ConsumerID.Address,
              Provider := e.SessionInfo.Proposal.ProviderID,
              ServiceType := e.SessionInfo.Proposal.ServiceType,
              ProviderCountry := e.SessionInfo.Proposal.ServiceDefinition.GetLocation.Country,
              ConsumerCountry := country.1 } })
    { sent := out.sent, logs := country.2 ++ out.logs }

/-- `sendStartupEvent` sends startup event. -/
def Sender.sendStartupEvent (sender : Sender) (rt : Runtime) (e : Payload) : SenderEffects :=
  sender.sendEvent rt startupEventName (Context.nodeStatus e.Status)

/-- `sendProposalEvent` sends provider proposal event. -/
def Sender.sendProposalEvent (sender : Sender) (rt : Runtime) (p : ServiceProposal) :
    SenderEffects :=
  sender.sendEvent rt proposalEventName (Context.proposal p)

/-- `SendNATMappingSuccessEvent` sends event about successful NAT mapping. -/
def Sender.SendNATMappingSuccessEvent (sender : Sender) (rt : Runtime) (stage : String)
    (gateways : List Gateway) : SenderEffects :=
  sender.sendEvent rt natMappingEventName
    (Context.natMapping
      { Stage := stage, Successful := true, ErrorMessage := none, Gateways := gateways })

/-- `SendNATMappingFailEvent` sends event about failed NAT mapping. Its first
statement is `errorMessage := err.Error()`: on a nil `err` the method call on the
nil interface panics before anything is sent or logged, and the call does not
return, which is the result `none`; on a non-nil `err` the call returns with the
effects of `sendEvent`. -/
def Sender.SendNATMappingFailEvent (sender : Sender) (rt : Runtime) (stage : String)
    (gateways : List Gateway) (err : Option Error) : Option SenderEffects :=
  match err with
  | none => none
  | some err =>
    let errorMessage := err.msg
    some (sender.sendEvent rt natMappingEventName
      (Context.natMapping
        { Stage := stage, Successful := false, ErrorMessage := some errorMessage,
          Gateways := gateways }))

/-- A transport whose `SendEvent` always fails: on envelope `ev` it returns the
non-nil error `fail ev`. Every always-failing transport is of this form. -/
def failingTransport (fail : Event → Error) : Transport :=
  { SendEvent := fun ev => some (fail ev) }

/-- The warnings of a log that report a failed send: level warn with the
transport's error attached (`log.Warn().Err(err)`). -/
def sendFailureWarnings (logs : List LogEntry) : List LogEntry :=
  logs.filter (fun l => l.level == LogLevel.warn && l.err.isSome)

/-! ## Specification-side definitions for `Shutdown` -/

/-- The errors contributed by one error-returning teardown step: the step is
attempted only when its handle is populated, and it fails when it returns a
non-nil error. -/
def attemptedFailure (handle : Option Handle) (result : Option Error) : List Error :=
  if handle.isSome then result.toList else []

/-- The errors of the attempted failing steps, in the order ServicesManager.Kill,
NATService.Disable, Node.Kill, Storage.Close. -/
def attemptedFailures (out : TeardownOutcomes) (di : Dependencies) : List Error :=
  attemptedFailure di.ServicesManager out.ServicesManagerKill ++
  attemptedFailure di.NATService out.NATServiceDisable ++
  attemptedFailure di.Node out.NodeKill ++
  attemptedFailure di.Storage out.StorageClose

/-- Which of the nine handles read by `Shutdown` are populated. -/
structure Populated where
  ServicesManager : Bool
  PolicyOracle : Bool
  NATService : Bool
  DiscoveryWorker : Bool
  BrokerConnection : Bool
  QualityClient : Bool
  ServiceFirewall : Bool
  Node : Bool
  Storage : Bool
deriving DecidableEq, Repr

/-- The populated pattern of a container. -/
def Dependencies.populated (di : Dependencies) : Populated :=
  { ServicesManager := di.ServicesManager.isSome,
    PolicyOracle := di.PolicyOracle.isSome,
    NATService := di.NATService.isSome,
    DiscoveryWorker := di.DiscoveryWorker.isSome,
    BrokerConnection := di.BrokerConnection.isSome,
    QualityClient := di.QualityClient.isSome,
    ServiceFirewall := di.ServiceFirewall.isSome,
    Node := di.Node.isSome,
    Storage := di.Storage.isSome }

/-- The call `c` when `present`, nothing otherwise. -/
def callIf (present : Bool) (c : TeardownCall) : List TeardownCall :=
  if present then [c] else []

/-- The teardown calls a populated pattern determines, in the order of the
source; `firewall.Reset` is not guarded by any handle. -/
def teardownPlan (p : Populated) : List TeardownCall :=
  callIf p.ServicesManager TeardownCall.ServicesManagerKill ++
  callIf p.PolicyOracle TeardownCall.PolicyOracleStop ++
  callIf p.NATService TeardownCall.NATServiceDisable ++
  callIf p.DiscoveryWorker TeardownCall.DiscoveryWorkerStop ++
  callIf p.BrokerConnection TeardownCall.BrokerConnectionClose ++
  callIf p.QualityClient TeardownCall.QualityClientStop ++
  callIf p.ServiceFirewall TeardownCall.ServiceFirewallTeardown ++
  [TeardownCall.firewallReset] ++
  callIf p.Node TeardownCall.NodeKill ++
  callIf p.Storage TeardownCall.StorageClose

/-- Teardown outcomes in which every error-returning step succeeds. -/
def TeardownOutcomes.allSucceed : TeardownOutcomes :=
  { ServicesManagerKill := none, NATServiceDisable := none, NodeKill := none,
    StorageClose := none }

/-- A container in which only the storage has been opened. -/
def storageOnly : Dependencies :=
  { Dependencies.empty with Storage := some { addr := 1 } }

/-! ## Specification-side definitions for the watcher -/

/-- The state observed in a delivery. -/
def Delivery.state (d : Delivery) : State := d.event.State

/-- An edge between the tracked state and a new state: NotConnected to
Connected, or Connected to NotConnected. -/
def isEdge (latest new : State) : Bool :=
  (latest == State.NotConnected && new == State.Connected) ||
  (latest == State.Connected && new == State.NotConnected)

/-! ## Specification-side definitions for the sender -/

/-- The application metadata of every envelope: name "myst", the sender's
version, the runtime's OS and architecture. -/
def expectedApplication (sender : Sender) (rt : Runtime) : appInfo :=
  { Name := "myst", Version := sender.AppVersion, OS := rt.GOOS, Arch := rt.GOARCH }

/-- The session identifiers of an event, copied unchanged, with the given
consumer country. -/
def expectedSessionContext (si : SessionInfo) (consumerCountry : String) : sessionContext :=
  { ID := si.SessionID,
    Consumer := si.ConsumerID.Address,
    Provider := si.Proposal.ProviderID,
    ServiceType := si.Proposal.ServiceType,
    ProviderCountry := si.Proposal.ServiceDefinition.location.Country,
    ConsumerCountry := consumerCountry }

/-- The warning logged for the failed send of the envelope `ev` when the
transport returned `err`. -/
def sendFailureWarning (err : Error) (ev : Event) : LogEntry :=
  { level := LogLevel.warn, err := some err, msg := "Failed to send metric: " ++ ev.EventName }

/-! ## Specification-side definitions for the teardown order and the consumer country -/

/-- A container in which every handle is populated, each with its own component. -/
def fullyPopulated : Dependencies where
  NetworkDefinition := ⟨"", "", ""⟩
  Node := some { addr := 1 }
  HTTPClient := some { addr := 2 }
  MysteriumAPI := some { addr := 3 }
  EtherClient := some { addr := 4 }
  BrokerConnector := some { addr := 5 }
  BrokerConnection := some { addr := 6 }
  NATService := some { addr := 7 }
  Storage := some { addr := 8 }
  Keystore := some { addr := 9 }
  IdentityManager := some { addr := 10 }
  SignerFactory := some { addr := 11 }
  IdentityRegistry := some { addr := 12 }
  IdentitySelector := some { addr := 13 }
  DiscoveryFactory := some { addr := 14 }
  ProposalRepository := some { addr := 15 }
  DiscoveryWorker := some { addr := 16 }
  QualityClient := some { addr := 17 }
  IPResolver := some { addr := 18 }
  LocationResolver := some { addr := 19 }
  PolicyOracle := some { addr := 20 }
  StatisticsReporter := some { addr := 21 }
  SessionStorage := some { addr := 22 }
  SessionConnectivityStatusStorage := some { addr := 23 }
  EventBus := some { addr := 24 }
  ConnectionManager := some { addr := 25 }
  ConnectionRegistry := some { addr := 26 }
  ServicesManager := some { addr := 27 }
  ServiceRegistry := some { addr := 28 }
  ServiceSessionStorage := some { addr := 29 }
  ServiceFirewall := some { addr := 30 }
  NATPinger := some { addr := 31 }
  NATTracker := some { addr := 32 }
  PortPool := some { addr := 33 }
  PortMapper := some { addr := 34 }
  StateKeeper := some { addr := 35 }
  P2PDialer := some { addr := 36 }
  P2PListener := some { addr := 37 }
  Authenticator := some { addr := 38 }
  JWTAuthenticator := some { addr := 39 }
  UIServer := some { addr := 40 }
  Transactor := some { addr := 41 }
  BCHelper := some { addr := 42 }
  ProviderRegistrar := some { addr := 43 }
  LogCollector := some { addr := 44 }
  Reporter := some { addr := 45 }
  ProviderInvoiceStorage := some { addr := 46 }
  ConsumerTotalsStorage := some { addr := 47 }
  AccountantPromiseStorage := some { addr := 48 }
  ConsumerBalanceTracker := some { addr := 49 }
  AccountantPromiseSettler := some { addr := 50 }
  AccountantCaller := some { addr := 51 }
  ChannelAddressCalculator := some { addr := 52 }

/-- The consumer country the spec prescribes for a lookup result: the origin's
country when the lookup succeeds, the empty string when it fails. -/
def expectedConsumerCountry (lookup : Origin × Option Error) : String :=
  if lookup.2.isSome then "" else lookup.1.Country

/-- The phase the spec assigns to each teardown call: (1) managers of active
services, (2) network-facing resources, (3) policy and firewall rules, (4) the
core runtime, (5) persistent storage. -/
def TeardownCall.phase : TeardownCall → Nat
  | TeardownCall.ServicesManagerKill => 1
  | TeardownCall.NATServiceDisable => 2
  | TeardownCall.DiscoveryWorkerStop => 2
  | TeardownCall.BrokerConnectionClose => 2
  | TeardownCall.QualityClientStop => 2
  | TeardownCall.PolicyOracleStop => 3
  | TeardownCall.ServiceFirewallTeardown => 3
  | TeardownCall.firewallReset => 3
  | TeardownCall.NodeKill => 4
  | TeardownCall.StorageClose => 5

/-! ## `Dependencies.Bootstrap`: handles by name, events, stage state -/

/-- The handle fields of `Dependencies`, by name, in declaration order. -/
inductive Field where
  | Node
  | HTTPClient
  | MysteriumAPI
  | EtherClient
  | BrokerConnector
  | BrokerConnection
  | NATService
  | Storage
  | Keystore
  | IdentityManager
  | SignerFactory
  | IdentityRegistry
  | IdentitySelector
  | DiscoveryFactory
  | ProposalRepository
  | DiscoveryWorker
  | QualityClient
  | IPResolver
  | LocationResolver
  | PolicyOracle
  | StatisticsReporter
  | SessionStorage
  | SessionConnectivityStatusStorage
  | EventBus
  | ConnectionManager
  | ConnectionRegistry
  | ServicesManager
  | ServiceRegistry
  | ServiceSessionStorage
  | ServiceFirewall
  | NATPinger
  | NATTracker
  | PortPool
  | PortMapper
  | StateKeeper
  | P2PDialer
  | P2PListener
  | Authenticator
  | JWTAuthenticator
  | UIServer
  | Transactor
  | BCHelper
  | ProviderRegistrar
  | LogCollector
  | Reporter
  | ProviderInvoiceStorage
  | ConsumerTotalsStorage
  | AccountantPromiseStorage
  | ConsumerBalanceTracker
  | AccountantPromiseSettler
  | AccountantCaller
  | ChannelAddressCalculator
deriving DecidableEq, Repr

/-- The handle stored in the field `f` of the container (`di.f`). -/
def Dependencies.get (di : Dependencies) : Field → Option Handle
  | Field.Node => di.Node
  | Field.HTTPClient => di.HTTPClient
  | Field.MysteriumAPI => di.MysteriumAPI
  | Field.EtherClient => di.EtherClient
  | Field.BrokerConnector => di.BrokerConnector
  | Field.BrokerConnection => di.BrokerConnection
  | Field.NATService => di.NATService
  | Field.Storage => di.Storage
  | Field.Keystore => di.Keystore
  | Field.IdentityManager => di.IdentityManager
  | Field.SignerFactory => di.SignerFactory
  | Field.IdentityRegistry => di.IdentityRegistry
  | Field.IdentitySelector => di.IdentitySelector
  | Field.DiscoveryFactory => di.DiscoveryFactory
  | Field.ProposalRepository => di.ProposalRepository
  | Field.DiscoveryWorker => di.DiscoveryWorker
  | Field.QualityClient => di.QualityClient
  | Field.IPResolver => di.IPResolver
  | Field.LocationResolver => di.LocationResolver
  | Field.PolicyOracle => di.PolicyOracle
  | Field.StatisticsReporter => di.StatisticsReporter
  | Field.SessionStorage => di.SessionStorage
  | Field.SessionConnectivityStatusStorage => di.SessionConnectivityStatusStorage
  | Field.EventBus => di.EventBus
  | Field.ConnectionManager => di.ConnectionManager
  | Field.ConnectionRegistry => di.ConnectionRegistry
  | Field.ServicesManager => di.ServicesManager
  | Field.ServiceRegistry => di.ServiceRegistry
  | Field.ServiceSessionStorage => di.ServiceSessionStorage
  | Field.ServiceFirewall => di.ServiceFirewall
  | Field.NATPinger => di.NATPinger
  | Field.NATTracker => di.NATTracker
  | Field.PortPool => di.PortPool
  | Field.PortMapper => di.PortMapper
  | Field.StateKeeper => di.StateKeeper
  | Field.P2PDialer => di.P2PDialer
  | Field.P2PListener => di.P2PListener
  | Field.Authenticator => di.Authenticator
  | Field.JWTAuthenticator => di.JWTAuthenticator
  | Field.UIServer => di.UIServer
  | Field.Transactor => di.Transactor
  | Field.BCHelper => di.BCHelper
  | Field.ProviderRegistrar => di.ProviderRegistrar
  | Field.LogCollector => di.LogCollector
  | Field.Reporter => di.Reporter
  | Field.ProviderInvoiceStorage => di.ProviderInvoiceStorage
  | Field.ConsumerTotalsStorage => di.ConsumerTotalsStorage
  | Field.AccountantPromiseStorage => di.AccountantPromiseStorage
  | Field.ConsumerBalanceTracker => di.ConsumerBalanceTracker
  | Field.AccountantPromiseSettler => di.AccountantPromiseSettler
  | Field.AccountantCaller => di.AccountantCaller
  | Field.ChannelAddressCalculator => di.ChannelAddressCalculator

/-- The container after the assignment `di.f = h`. -/
def Dependencies.set (di : Dependencies) (f : Field) (h : Option Handle) : Dependencies :=
  match f with
  | Field.Node => { di with Node := h }
  | Field.HTTPClient => { di with HTTPClient := h }
  | Field.MysteriumAPI => { di with MysteriumAPI := h }
  | Field.EtherClient => { di with EtherClient := h }
  | Field.BrokerConnector => { di with BrokerConnector := h }
  | Field.BrokerConnection => { di with BrokerConnection := h }
  | Field.NATService => { di with NATService := h }
  | Field.Storage => { di with Storage := h }
  | Field.Keystore => { di with Keystore := h }
  | Field.IdentityManager => { di with IdentityManager := h }
  | Field.SignerFactory => { di with SignerFactory := h }
  | Field.IdentityRegistry => { di with IdentityRegistry := h }
  | Field.IdentitySelector => { di with IdentitySelector := h }
  | Field.DiscoveryFactory => { di with DiscoveryFactory := h }
  | Field.ProposalRepository => { di with ProposalRepository := h }
  | Field.DiscoveryWorker => { di with DiscoveryWorker := h }
  | Field.QualityClient => { di with QualityClient := h }
  | Field.IPResolver => { di with IPResolver := h }
  | Field.LocationResolver => { di with LocationResolver := h }
  | Field.PolicyOracle => { di with PolicyOracle := h }
  | Field.StatisticsReporter => { di with StatisticsReporter := h }
  | Field.SessionStorage => { di with SessionStorage := h }
  | Field.SessionConnectivityStatusStorage => { di with SessionConnectivityStatusStorage := h }
  | Field.EventBus => { di with EventBus := h }
  | Field.ConnectionManager => { di with ConnectionManager := h }
  | Field.ConnectionRegistry => { di with ConnectionRegistry := h }
  | Field.ServicesManager => { di with ServicesManager := h }
  | Field.ServiceRegistry => { di with ServiceRegistry := h }
  | Field.ServiceSessionStorage => { di with ServiceSessionStorage := h }
  | Field.ServiceFirewall => { di with ServiceFirewall := h }
  | Field.NATPinger => { di with NATPinger := h }
  | Field.NATTracker => { di with NATTracker := h }
  | Field.PortPool => { di with PortPool := h }
  | Field.PortMapper => { di with PortMapper := h }
  | Field.StateKeeper => { di with StateKeeper := h }
  | Field.P2PDialer => { di with P2PDialer := h }
  | Field.P2PListener => { di with P2PListener := h }
  | Field.Authenticator => { di with Authenticator := h }
  | Field.JWTAuthenticator => { di with JWTAuthenticator := h }
  | Field.UIServer => { di with UIServer := h }
  | Field.Transactor => { di with Transactor := h }
  | Field.BCHelper => { di with BCHelper := h }
  | Field.ProviderRegistrar => { di with ProviderRegistrar := h }
  | Field.LogCollector => { di with LogCollector := h }
  | Field.Reporter => { di with Reporter := h }
  | Field.ProviderInvoiceStorage => { di with ProviderInvoiceStorage := h }
  | Field.ConsumerTotalsStorage => { di with ConsumerTotalsStorage := h }
  | Field.AccountantPromiseStorage => { di with AccountantPromiseStorage := h }
  | Field.ConsumerBalanceTracker => { di with ConsumerBalanceTracker := h }
  | Field.AccountantPromiseSettler => { di with AccountantPromiseSettler := h }
  | Field.AccountantCaller => { di with AccountantCaller := h }
  | Field.ChannelAddressCalculator => { di with ChannelAddressCalculator := h }

/-- The position of a field in the declaration of the struct. -/
def Field.position : Field → Nat
  | Field.Node => 1
  | Field.HTTPClient => 2
  | Field.MysteriumAPI => 3
  | Field.EtherClient => 4
  | Field.BrokerConnector => 5
  | Field.BrokerConnection => 6
  | Field.NATService => 7
  | Field.Storage => 8
  | Field.Keystore => 9
  | Field.IdentityManager => 10
  | Field.SignerFactory => 11
  | Field.IdentityRegistry => 12
  | Field.IdentitySelector => 13
  | Field.DiscoveryFactory => 14
  | Field.ProposalRepository => 15
  | Field.DiscoveryWorker => 16
  | Field.QualityClient => 17
  | Field.IPResolver => 18
  | Field.LocationResolver => 19
  | Field.PolicyOracle => 20
  | Field.StatisticsReporter => 21
  | Field.SessionStorage => 22
  | Field.SessionConnectivityStatusStorage => 23
  | Field.EventBus => 24
  | Field.ConnectionManager => 25
  | Field.ConnectionRegistry => 26
  | Field.ServicesManager => 27
  | Field.ServiceRegistry => 28
  | Field.ServiceSessionStorage => 29
  | Field.ServiceFirewall => 30
  | Field.NATPinger => 31
  | Field.NATTracker => 32
  | Field.PortPool => 33
  | Field.PortMapper => 34
  | Field.StateKeeper => 35
  | Field.P2PDialer => 36
  | Field.P2PListener => 37
  | Field.Authenticator => 38
  | Field.JWTAuthenticator => 39
  | Field.UIServer => 40
  | Field.Transactor => 41
  | Field.BCHelper => 42
  | Field.ProviderRegistrar => 43
  | Field.LogCollector => 44
  | Field.Reporter => 45
  | Field.ProviderInvoiceStorage => 46
  | Field.ConsumerTotalsStorage => 47
  | Field.AccountantPromiseStorage => 48
  | Field.ConsumerBalanceTracker => 49
  | Field.AccountantPromiseSettler => 50
  | Field.AccountantCaller => 51
  | Field.ChannelAddressCalculator => 52

/-- The component a constructor call made for the field `f` returns: a non-nil
handle, one per field. -/
def Field.component (f : Field) : Handle := { addr := f.position }

/-- What a stage of `Bootstrap` does to the container, as far as handles go:
it reads a handle (`di.f` used as a value; `populated` tells whether it was
non-nil at that moment) or assigns one (`di.f = h`). -/
inductive StageEvent where
  | read (f : Field) (populated : Bool)
  | assign (f : Field) (h : Option Handle)
deriving DecidableEq, Repr

/-- The state a stage works on: the container, the local variable
`tequilaListener` of `Bootstrap`, and the events of the stage so far. -/
structure StageState where
  di : Dependencies
  tequilaListener : Option Handle
  events : List StageEvent
deriving DecidableEq, Repr

/-- A stage's outcome: the state it leaves (assignments made before a failure
stay made: Go mutates the container through the pointer receiver) and the error
it returns, `none` for nil. -/
abbrev StageResult := StageState × Option Error

/-- The stage reads `di.f`. -/
def StageState.read (st : StageState) (f : Field) : StageState :=
  { st with events := st.events ++ [StageEvent.read f (st.di.get f).isSome] }

/-- The stage executes `di.f = h`. -/
def StageState.assign (st : StageState) (f : Field) (h : Option Handle) : StageState :=
  { st with di := st.di.set f h, events := st.events ++ [StageEvent.assign f h] }

/-- The stage executes `di.f = NewX(...)` for a constructor that returns a
component and no error. -/
def StageState.construct (st : StageState) (f : Field) : StageState :=
  st.assign f (some f.component)

/-- The stage executes `return err` with a non-nil error. -/
def StageState.fail (st : StageState) (err : Error) : StageResult := (st, some err)

/-- The stage executes `return nil`. -/
def StageState.ok (st : StageState) : StageResult := (st, none)

/-- The stage executes `return X(...)`, `X` returning the error `r`. -/
def StageState.returning (st : StageState) (r : Option Error) : StageResult := (st, r)

/-- The wrapper `errors.Wrap(err, message)` of `github.com/pkg/errors` on a
non-nil error: its text is the message, a colon, and the text of `err`. -/
def Error.Wrap (err : Error) (message : String) : Error :=
  { msg := message ++ ": " ++ err.msg }

/-! ## `Dependencies.Bootstrap`: options, presets, collaborator outcomes -/

/-- The values of `node.Options.Location.Type`: the four constants the switch of
`bootstrapLocationComponents` names, and any other value of the underlying
string type. -/
inductive LocationType where
  | Manual
  | Builtin
  | MMDB
  | Oracle
  | other (name : String)
deriving DecidableEq, Repr

/-- The values of `node.OptionsQuality.Type`: the three constants the switch of
`bootstrapQualityComponents` names, and any other value of the underlying
string type. -/
inductive QualityType where
  | Elastic
  | MORQA
  | None
  | other (name : String)
deriving DecidableEq, Repr

/-- The struct `node.OptionsNetwork`: the fields `bootstrapNetworkComponents` reads. -/
structure OptionsNetwork where
  Testnet : Bool
  Localnet : Bool
  MysteriumAPIAddress : String
  BrokerAddress : String
  EtherClientRPC : String
deriving DecidableEq, Repr

/-- The struct `node.OptionsFirewall`. -/
structure OptionsFirewall where
  BlockAlways : Bool
deriving DecidableEq, Repr

/-- The struct `node.OptionsLocation`: the field that selects the resolver
(the Go field is named Type). -/
structure OptionsLocation where
  Typ : LocationType
deriving DecidableEq, Repr

/-- The struct `node.OptionsQuality`: the field that selects the transport
(the Go field is named Type). -/
structure OptionsQuality where
  Typ : QualityType
deriving DecidableEq, Repr

/-- The fields of `node.Options` that decide which statements of `Bootstrap`
run or what text an error carries. -/
structure Options where
  TequilapiEnabled : Bool
  TequilapiPort : Int
  Firewall : OptionsFirewall
  OptionsNetwork : OptionsNetwork
  Location : OptionsLocation
  ExperimentNATPunching : Bool
  Quality : OptionsQuality
deriving DecidableEq, Repr

/-- The flags `Bootstrap` reads through `config.GetBool`. -/
structure Config where
  FlagPortMapping : Bool
  FlagIncomingFirewall : Bool
  FlagPProfEnable : Bool
deriving DecidableEq, Repr

/-- The three network presets of package `metadata`, declared outside the two
files: `DefaultNetwork`, `TestnetDefinition`, `LocalnetDefinition`. -/
structure Metadata where
  DefaultNetwork : NetworkDefinition
  TestnetDefinition : NetworkDefinition
  LocalnetDefinition : NetworkDefinition
deriving DecidableEq, Repr

/-- A method of `Dependencies` that `Bootstrap` calls and whose body is outside
the two files: the assignments to handles it makes, in order, before it returns,
and the error it returns (ignored for a method without result). -/
structure ExternalStage where
  assigns : List (Field × Option Handle)
  err : Option Error
deriving DecidableEq, Repr

/-- What each collaborator call of `Bootstrap` returns if it is made, one field
per call site, in source order (`none` is a nil error). A call that returns a
value together with an error has a pair. -/
structure BootOutcomes where
  NewNoopListener : Option Handle × Option Error
  netListen : Option Handle × Option Error
  DirectoriesCheck : Option Error
  OutgoingFirewallSetup : Option Error
  ServiceFirewallSetup : Option Error
  GetOutboundIPAsString : Option Error
  BlockNonTunnelTraffic : Option Error
  NewStorage : Option Error
  RunMigrations : Option Error
  SessionStorageSubscribe : Option Error
  NetworkFirewallAllow : Option Error
  NetworkServiceFirewallAllow : Option Error
  ParseServerURI : Option Error
  BrokerServiceFirewallAllow : Option Error
  BrokerConnect : Option Handle × Option Error
  NewReconnectableEthClient : Option Handle × Option Error
  NewIdentityRegistryContract : Option Handle × Option Error
  IdentityRegistrySubscribe : Option Error
  bootstrapDiscoveryComponents : ExternalStage
  LocationFirewallAllow : Option Error
  LocationServiceFirewallAllow : Option Error
  NewBuiltInResolver : Option Error
  NewExternalDBResolver : Option Error
  OracleFirewallAllow : Option Error
  OracleServiceFirewallAllow : Option Error
  LocationSubscribeConnectionState : Option Error
  LocationSubscribeNode : Option Error
  NewJWTEncryptionKey : Option Error
  bootstrapUIServer : ExternalStage
  bootstrapMMN : ExternalStage
  NATTrackerSubscribe : Option Error
  bootstrapServices : ExternalStage
  QualityFirewallAllow : Option Error
  QualityServiceFirewallAllow : Option Error
  QualitySenderSubscribe : Option Error
  NATSenderSubscribe : Option Error
  BandwidthTrackerSubscribe : Option Error
  StatisticsReporterSubscribe : Option Error
  bootstrapAccountantPromiseSettler : ExternalStage
  bootstrapProviderRegistrar : ExternalStage
  ConsumerBalanceTrackerSubscribe : Option Error
  NewReporter : Option Error
  StateKeeperSubscribe : Option Error
  AddRoutesForSSE : Option Error
  registerConnections : ExternalStage
  ConnStateSubscribe : Option Error
  NodeStart : Option Error
deriving DecidableEq, Repr

/-- An external stage run on a state: its assignments, then its error. -/
def ExternalStage.run (stage : ExternalStage) (st : StageState) : StageResult :=
  (stage.assigns.foldl (fun s a => s.assign a.1 a.2) st, stage.err)

/-- An external stage without result run on a state: its assignments. -/
def ExternalStage.runVoid (stage : ExternalStage) (st : StageState) : StageResult :=
  (stage.assigns.foldl (fun s a => s.assign a.1 a.2) st, none)

/-! ## `Dependencies.Bootstrap`: the stages up to the network -/

/-- The statements of `Bootstrap` before its first stage: logging and
unserializer setup (no handle involved), `di.BrokerConnector =
nats.NewBrokerConnector()`, `di.HTTPClient = requests.NewHTTPClient(...)`. -/
def bootstrapSetup (st : StageState) : StageResult :=
  let st := st.construct Field.BrokerConnector
  let st := st.construct Field.HTTPClient
  st.ok

/-- The text `createTequilaListener` wraps a failed `net.Listen` with. -/
def portTakenMessage (port : Int) : String :=
  "the port " ++ toString port ++
  " seems to be taken. Either you're already running a node or it is already used by another application"

/-- `func (di *Dependencies) createTequilaListener(nodeOptions node.Options)
(net.Listener, error)` together with the assignment of its first result to the
local `tequilaListener` of `Bootstrap`. -/
def createTequilaListener (env : BootOutcomes) (nodeOptions : Options) (st : StageState) :
    StageResult :=
  if !nodeOptions.TequilapiEnabled then
    ({ st with tequilaListener := env.NewNoopListener.1 }, env.NewNoopListener.2)
  else
    match env.netListen.2 with
    | some err =>
      ({ st with tequilaListener := none },
       some (err.Wrap (portTakenMessage nodeOptions.TequilapiPort)))
    | none => ({ st with tequilaListener := env.netListen.1 }, none)

/-- The statement `nodeOptions.Directories.Check()` of `Bootstrap`. -/
def directoriesCheck (env : BootOutcomes) (st : StageState) : StageResult :=
  st.returning env.DirectoriesCheck

/-- `func (di *Dependencies) bootstrapFirewall(options node.OptionsFirewall) error`.
Its first statement assigns the package variable `firewall.DefaultOutgoingFirewall`,
which is no handle of the container. -/
def bootstrapFirewall (env : BootOutcomes) (options : OptionsFirewall) (st : StageState) :
    StageResult :=
  match env.OutgoingFirewallSetup with
  | some err => st.fail err
  | none =>
    let st := st.construct Field.ServiceFirewall
    let st := st.read Field.ServiceFirewall
    match env.ServiceFirewallSetup with
    | some err => st.fail err
    | none =>
      if options.BlockAlways then
        let st := st.read Field.HTTPClient
        match env.GetOutboundIPAsString with
        | some err => st.fail err
        | none => st.returning env.BlockNonTunnelTraffic
      else
        st.ok

/-- `func (di *Dependencies) bootstrapEventBus()`. -/
def bootstrapEventBus (st : StageState) : StageResult :=
  (st.construct Field.EventBus).ok

/-- `func (di *Dependencies) bootstrapStorage(path string) error`. The opened
`localStorage` is a local until `di.Storage = localStorage`. -/
def bootstrapStorage (env : BootOutcomes) (st : StageState) : StageResult :=
  match env.NewStorage with
  | some err => st.fail err
  | none =>
    match env.RunMigrations with
    | some err => st.fail err
    | none =>
      let st := st.construct Field.Storage
      let st := st.read Field.Storage
      let st := st.construct Field.ProviderInvoiceStorage
      let st := (st.read Field.Storage).read Field.EventBus
      let st := st.construct Field.ConsumerTotalsStorage
      let st := st.read Field.Storage
      let st := st.construct Field.AccountantPromiseStorage
      let st := st.read Field.Storage
      let st := st.construct Field.SessionStorage
      let st := (st.read Field.SessionStorage).read Field.EventBus
      st.returning env.SessionStorageSubscribe

/-- The network definition `bootstrapNetworkComponents` decides on: the preset
selected by the testnet and localnet flags, each of the three addresses
overridden by the option when the option differs from the default preset. -/
def decideNetworkDefinition (md : Metadata) (optionsNetwork : OptionsNetwork) :
    NetworkDefinition :=
  let network := md.DefaultNetwork
  let network :=
    if optionsNetwork.Testnet then md.TestnetDefinition
    else if optionsNetwork.Localnet then md.LocalnetDefinition
    else network
  -- override defined values one by one from options
  let network :=
    if optionsNetwork.MysteriumAPIAddress ≠ md.DefaultNetwork.MysteriumAPIAddress then
      { network with MysteriumAPIAddress := optionsNetwork.MysteriumAPIAddress }
    else network
  let network :=
    if optionsNetwork.BrokerAddress ≠ md.DefaultNetwork.BrokerAddress then
      { network with BrokerAddress := optionsNetwork.BrokerAddress }
    else network
  let network :=
    if optionsNetwork.EtherClientRPC ≠ md.DefaultNetwork.EtherClientRPC then
      { network with EtherClientRPC := optionsNetwork.EtherClientRPC }
    else network
  network

/-- `func (di *Dependencies) bootstrapNetworkComponents(options node.Options)
(err error)`. The three calls that return a handle together with an error assign
the handle to the container before the error is checked. -/
def bootstrapNetworkComponents (md : Metadata) (env : BootOutcomes) (options : Options)
    (st : StageState) : StageResult :=
  let network := decideNetworkDefinition md options.OptionsNetwork
  let st := { st with di := { st.di with NetworkDefinition := network } }
  match env.NetworkFirewallAllow with
  | some err => st.fail err
  | none =>
    let st := st.read Field.ServiceFirewall
    match env.NetworkServiceFirewallAllow with
    | some err => st.fail err
    | none =>
      let st := st.read Field.HTTPClient
      let st := st.construct Field.MysteriumAPI
      match env.ParseServerURI with
      | some err => st.fail err
      | none =>
        let st := st.read Field.ServiceFirewall
        match env.BrokerServiceFirewallAllow with
        | some err => st.fail err
        | none =>
          let st := st.read Field.BrokerConnector
          let st := st.assign Field.BrokerConnection env.BrokerConnect.1
          match env.BrokerConnect.2 with
          | some err => st.fail err
          | none =>
            let st := st.assign Field.EtherClient env.NewReconnectableEthClient.1
            match env.NewReconnectableEthClient.2 with
            | some err => st.fail err
            | none =>
              let st := st.read Field.EtherClient
              let st := st.construct Field.BCHelper
              let st := st.read Field.Storage
              let st := (st.read Field.EtherClient).read Field.EventBus
              let st := st.assign Field.IdentityRegistry env.NewIdentityRegistryContract.1
              match env.NewIdentityRegistryContract.2 with
              | some err => st.fail err
              | none =>
                let st := (st.read Field.IdentityRegistry).read Field.EventBus
                st.returning env.IdentityRegistrySubscribe

/-! ## `Dependencies.Bootstrap`: identity, location, authenticator, NAT, quality -/

/-- `func (di *Dependencies) bootstrapIdentityComponents(options node.Options)`.
Both branches on `options.Keystore.UseLightweight` build a local keystore and
touch no handle. -/
def bootstrapIdentityComponents (st : StageState) : StageResult :=
  let st := st.construct Field.Keystore
  let st := (st.read Field.Keystore).read Field.EventBus
  let st := st.construct Field.IdentityManager
  let st := st.construct Field.SignerFactory
  let st := ((st.read Field.IdentityManager).read Field.MysteriumAPI).read Field.SignerFactory
  let st := st.construct Field.IdentitySelector
  st.ok

/-- The text of the error `bootstrapLocationComponents` builds for a location
type its switch does not name. -/
def unknownLocationProvider (name : String) : Error :=
  { msg := "unknown location provider: " ++ name }

/-- The tail of `bootstrapLocationComponents` after its switch has produced a
resolver: the cache and the two subscriptions. -/
def bootstrapLocationCache (env : BootOutcomes) (st : StageState) : StageResult :=
  let st := st.construct Field.LocationResolver
  let st := (st.read Field.EventBus).read Field.LocationResolver
  match env.LocationSubscribeConnectionState with
  | some err => st.fail err
  | none =>
    let st := (st.read Field.EventBus).read Field.LocationResolver
    match env.LocationSubscribeNode with
    | some err => st.fail err
    | none => st.ok

/-- `func (di *Dependencies) bootstrapLocationComponents(options node.Options)
(err error)`. -/
def bootstrapLocationComponents (env : BootOutcomes) (options : Options) (st : StageState) :
    StageResult :=
  match env.LocationFirewallAllow with
  | some err => st.fail (err.Wrap "failed to add firewall exception")
  | none =>
    let st := st.read Field.ServiceFirewall
    match env.LocationServiceFirewallAllow with
    | some err => st.fail (err.Wrap "failed to add firewall exception")
    | none =>
      let st := st.read Field.HTTPClient
      let st := st.construct Field.IPResolver
      match options.Location.Typ with
      | LocationType.Manual =>
        let st := st.read Field.IPResolver
        bootstrapLocationCache env st
      | LocationType.Builtin =>
        let st := st.read Field.IPResolver
        match env.NewBuiltInResolver with
        | some err => st.fail err
        | none => bootstrapLocationCache env st
      | LocationType.MMDB =>
        let st := st.read Field.IPResolver
        match env.NewExternalDBResolver with
        | some err => st.fail err
        | none => bootstrapLocationCache env st
      | LocationType.Oracle =>
        match env.OracleFirewallAllow with
        | some err => st.fail err
        | none =>
          let st := st.read Field.ServiceFirewall
          match env.OracleServiceFirewallAllow with
          | some err => st.fail err
          | none =>
            let st := st.read Field.HTTPClient
            bootstrapLocationCache env st
      | LocationType.other name => st.fail (unknownLocationProvider name)

/-- `func (di *Dependencies) bootstrapAuthenticator() error`. -/
def bootstrapAuthenticator (env : BootOutcomes) (st : StageState) : StageResult :=
  let st := st.read Field.Storage
  match env.NewJWTEncryptionKey with
  | some err => st.fail err
  | none =>
    let st := st.read Field.Storage
    let st := st.construct Field.Authenticator
    let st := st.construct Field.JWTAuthenticator
    st.ok

/-- `func (di *Dependencies) bootstrapNATComponents(options node.Options) error`. -/
def bootstrapNATComponents (env : BootOutcomes) (options : Options) (st : StageState) :
    StageResult :=
  let st := st.construct Field.NATTracker
  let st := (st.read Field.NATTracker).read Field.EventBus
  match env.NATTrackerSubscribe with
  | some err => st.fail err
  | none =>
    if options.ExperimentNATPunching then
      let st := st.read Field.EventBus
      let st := st.construct Field.NATPinger
      st.ok
    else
      let st := st.construct Field.NATPinger
      st.ok

/-- The statements of `Bootstrap` between `bootstrapNATComponents` and
`bootstrapServices`: the port pool, the port mapper chosen by the port mapping
flag, the P2P listener and dialer, the connectivity status storage. -/
def bootstrapP2P (cfg : Config) (st : StageState) : StageResult :=
  let st := st.construct Field.PortPool
  let st :=
    if cfg.FlagPortMapping then
      (st.read Field.EventBus).construct Field.PortMapper
    else
      (st.read Field.EventBus).construct Field.PortMapper
  let st := (((((st.read Field.BrokerConnection).read Field.SignerFactory).read
    Field.IPResolver).read Field.NATPinger).read Field.PortPool).read Field.PortMapper
  let st := st.construct Field.P2PListener
  let st := ((((st.read Field.BrokerConnector).read Field.SignerFactory).read
    Field.IPResolver).read Field.NATPinger).read Field.PortPool
  let st := st.construct Field.P2PDialer
  let st := st.construct Field.SessionConnectivityStatusStorage
  st.ok

/-- The text of the error `bootstrapQualityComponents` builds for a transport
type its switch does not name. -/
def unknownQualityProvider (name : String) : Error :=
  { msg := "unknown Quality Oracle provider: " ++ name }

/-- The tail of `bootstrapQualityComponents` after its switch has produced a
transport: the metrics sender, its subscription, the NAT event sender, its
subscription. -/
def bootstrapQualitySenders (env : BootOutcomes) (st : StageState) : StageResult :=
  -- quality.NewSender(transport, version, di.ConnectionManager, di.LocationResolver)
  let st := (st.read Field.ConnectionManager).read Field.LocationResolver
  let st := st.read Field.EventBus
  match env.QualitySenderSubscribe with
  | some err => st.fail err
  | none =>
    let st := st.read Field.IPResolver
    let st := st.read Field.EventBus
    match env.NATSenderSubscribe with
    | some err => st.fail err
    | none => st.ok

/-- `func (di *Dependencies) bootstrapQualityComponents(bindAddress string,
options node.OptionsQuality) (err error)`. The client is assigned, and started,
before the switch on the transport type. -/
def bootstrapQualityComponents (env : BootOutcomes) (options : OptionsQuality)
    (st : StageState) : StageResult :=
  match env.QualityFirewallAllow with
  | some err => st.fail err
  | none =>
    let st := st.read Field.ServiceFirewall
    match env.QualityServiceFirewallAllow with
    | some err => st.fail err
    | none =>
      let st := st.construct Field.QualityClient
      let st := st.read Field.QualityClient
      match options.Typ with
      | QualityType.Elastic =>
        let st := st.read Field.HTTPClient
        bootstrapQualitySenders env st
      | QualityType.MORQA =>
        let st := st.read Field.QualityClient
        bootstrapQualitySenders env st
      | QualityType.None => bootstrapQualitySenders env st
      | QualityType.other name => st.fail (unknownQualityProvider name)

/-! ## `Dependencies.Bootstrap`: node components and the remaining steps -/

/-- The stage reads the handles `fs`, in order. -/
def StageState.readAll (st : StageState) (fs : List Field) : StageState :=
  fs.foldl (fun s f => s.read f) st

/-- `func (di *Dependencies) bootstrapStateKeeper(options node.Options) error`.
The branch on `options.ExperimentNATPunching` picks a stage name and touches no
handle. -/
def bootstrapStateKeeper (env : BootOutcomes) (st : StageState) : StageResult :=
  let st := st.readAll
    [Field.EventBus, Field.ServicesManager, Field.ServiceSessionStorage, Field.IdentityManager,
     Field.IdentityRegistry, Field.ChannelAddressCalculator, Field.ConsumerBalanceTracker,
     Field.AccountantPromiseSettler]
  let st := st.construct Field.StateKeeper
  let st := st.readAll [Field.StateKeeper, Field.EventBus]
  st.returning env.StateKeeperSubscribe

/-- `func (di *Dependencies) bootstrapTequilapi(nodeOptions node.Options,
listener net.Listener) (tequilapi.APIServer, error)`: the handles it passes to
the route builders, in source order. The server it returns is a local of
`bootstrapNodeComponents`. -/
def bootstrapTequilapi (env : BootOutcomes) (nodeOptions : Options) (st : StageState) :
    StageResult :=
  if !nodeOptions.TequilapiEnabled then
    st.ok
  else
    let st := st.readAll
      [Field.Authenticator, Field.JWTAuthenticator,
       Field.IdentityManager, Field.IdentitySelector, Field.IdentityRegistry,
       Field.ConsumerBalanceTracker, Field.ChannelAddressCalculator,
       Field.AccountantPromiseSettler,
       Field.ConnectionManager, Field.StateKeeper, Field.ProposalRepository,
       Field.IdentityRegistry,
       Field.SessionStorage,
       Field.ConnectionManager, Field.IPResolver, Field.LocationResolver,
       Field.LocationResolver,
       Field.ProposalRepository, Field.QualityClient,
       Field.ServicesManager,
       Field.StateKeeper,
       Field.IdentityManager, Field.SignerFactory, Field.MysteriumAPI,
       Field.HTTPClient,
       Field.StateKeeper,
       Field.Transactor, Field.AccountantPromiseSettler,
       Field.Reporter,
       Field.SessionConnectivityStatusStorage,
       Field.StateKeeper, Field.EventBus]
    match env.AddRoutesForSSE with
    | some err => st.fail err
    | none => st.ok

/-- The tail of `bootstrapNodeComponents`, from the connection registry on. -/
def bootstrapNodeConnection (env : BootOutcomes) (nodeOptions : Options) (st : StageState) :
    StageResult :=
  let st := st.construct Field.ConnectionRegistry
  let st := st.readAll
    [Field.Keystore, Field.SignerFactory, Field.ConsumerTotalsStorage, Field.EventBus,
     Field.ConnectionRegistry, Field.EventBus, Field.IPResolver,
     Field.ConsumerBalanceTracker, Field.IdentityManager, Field.P2PDialer]
  let st := st.construct Field.ConnectionManager
  let st := st.construct Field.LogCollector
  let st := st.readAll [Field.LogCollector, Field.IdentityManager]
  match env.NewReporter with
  | some err => st.fail err
  | none =>
    let st := st.construct Field.Reporter
    match bootstrapStateKeeper env st with
    | (st, some err) => st.fail err
    | (st, none) =>
      match bootstrapTequilapi env nodeOptions st with
      | (st, some err) => st.fail err
      | (st, none) =>
        let st := st.readAll
          [Field.ConnectionManager, Field.EventBus, Field.NATPinger, Field.UIServer]
        let st := st.construct Field.Node
        st.ok

/-- The middle of `bootstrapNodeComponents`, from the promise settler to the
subscription of the balance tracker. -/
def bootstrapNodePayments (env : BootOutcomes) (nodeOptions : Options) (st : StageState) :
    StageResult :=
  match env.bootstrapAccountantPromiseSettler.run st with
  | (st, some err) => st.fail err
  | (st, none) =>
    match env.bootstrapProviderRegistrar.run st with
    | (st, some err) => st.fail err
    | (st, none) =>
      let st := st.construct Field.ChannelAddressCalculator
      let st := st.read Field.HTTPClient
      let st := st.construct Field.AccountantCaller
      let st := st.readAll
        [Field.EventBus, Field.BCHelper, Field.ChannelAddressCalculator,
         Field.ConsumerTotalsStorage, Field.AccountantCaller]
      let st := st.construct Field.ConsumerBalanceTracker
      let st := st.readAll [Field.ConsumerBalanceTracker, Field.EventBus]
      match env.ConsumerBalanceTrackerSubscribe with
      | some err =>
        st.fail (err.Wrap "could not subscribe consumer balance tracker to relevant events")
      | none => bootstrapNodeConnection env nodeOptions st

/-- `func (di *Dependencies) bootstrapNodeComponents(nodeOptions node.Options,
tequilaListener net.Listener) error`. -/
def bootstrapNodeComponents (env : BootOutcomes) (nodeOptions : Options) (st : StageState) :
    StageResult :=
  -- Consumer current session bandwidth
  let st := st.readAll [Field.EventBus, Field.EventBus]
  match env.BandwidthTrackerSubscribe with
  | some err => st.fail err
  | none =>
    -- Consumer session history (API storage)
    let st := st.readAll [Field.MysteriumAPI, Field.SignerFactory, Field.LocationResolver]
    let st := st.construct Field.StatisticsReporter
    let st := st.readAll [Field.StatisticsReporter, Field.EventBus]
    match env.StatisticsReporterSubscribe with
    | some err => st.fail err
    | none =>
      let st := st.readAll [Field.HTTPClient, Field.SignerFactory, Field.EventBus]
      let st := st.construct Field.Transactor
      bootstrapNodePayments env nodeOptions st

/-- The call `di.handleConnStateChange()` of `Bootstrap`: the nil check reads the
HTTP client, the subscription reads the event bus. -/
def handleConnStateChangeStep (env : BootOutcomes) (st : StageState) : StageResult :=
  let st := st.read Field.HTTPClient
  let st := if st.di.HTTPClient.isNone then st else st.read Field.EventBus
  match handleConnStateChange st.di env.ConnStateSubscribe with
  | Except.error err => st.fail err
  | Except.ok _ => st.ok

/-- The call `di.Node.Start()` of `Bootstrap`. -/
def nodeStart (env : BootOutcomes) (st : StageState) : StageResult :=
  (st.read Field.Node).returning env.NodeStart

/-- The call `appconfig.Current.EnableEventPublishing(di.EventBus)` of `Bootstrap`. -/
def enableEventPublishing (st : StageState) : StageResult :=
  (st.read Field.EventBus).ok

/-! ## `Dependencies.Bootstrap` -/

/-- The steps of `Bootstrap`, named after the method each calls; `setup` and
`bootstrapP2P` are the two runs of statements written in the body itself. -/
inductive Step where
  | setup
  | createTequilaListener
  | directoriesCheck
  | bootstrapFirewall
  | bootstrapEventBus
  | bootstrapStorage
  | bootstrapNetworkComponents
  | bootstrapIdentityComponents
  | bootstrapDiscoveryComponents
  | bootstrapLocationComponents
  | bootstrapAuthenticator
  | bootstrapUIServer
  | bootstrapMMN
  | bootstrapNATComponents
  | bootstrapP2P
  | bootstrapServices
  | bootstrapQualityComponents
  | bootstrapNodeComponents
  | registerConnections
  | handleConnStateChange
  | nodeStart
  | enableEventPublishing
deriving DecidableEq, Repr

/-- What one executed step of `Bootstrap` did: the step, its events in order,
and the error it returned. -/
structure StepRecord where
  step : Step
  events : List StageEvent
  err : Option Error
deriving DecidableEq, Repr

/-- Everything observable of one run of `Bootstrap`: the container afterwards,
the record of each step executed, in order, and the returned error. -/
structure BootResult where
  di : Dependencies
  records : List StepRecord
  err : Option Error
deriving DecidableEq, Repr

/-- The body of `Bootstrap` as a sequence of steps, each followed by
`if err != nil { return err }`: the first step that returns a non-nil error ends
the run with that error, returned as it is; after the last step, `return nil`. -/
def runSteps : List (Step × (StageState → StageResult)) → Dependencies → Option Handle →
    BootResult
  | [], di, _ => { di := di, records := [], err := none }
  | (s, f) :: rest, di, listener =>
    let r := f { di := di, tequilaListener := listener, events := [] }
    match r.2 with
    | some err =>
      { di := r.1.di, records := [{ step := s, events := r.1.events, err := some err }],
        err := some err }
    | none =>
      let out := runSteps rest r.1.di r.1.tequilaListener
      { di := out.di,
        records := { step := s, events := r.1.events, err := none } :: out.records,
        err := out.err }

/-- The steps of `Bootstrap` in source order. -/
def bootstrapSteps (md : Metadata) (cfg : Config) (env : BootOutcomes) (nodeOptions : Options) :
    List (Step × (StageState → StageResult)) :=
  [ (Step.setup, bootstrapSetup),
    -- Check early for presence of an already running node
    (Step.createTequilaListener, createTequilaListener env nodeOptions),
    (Step.directoriesCheck, directoriesCheck env),
    (Step.bootstrapFirewall, bootstrapFirewall env nodeOptions.Firewall),
    (Step.bootstrapEventBus, bootstrapEventBus),
    (Step.bootstrapStorage, bootstrapStorage env),
    (Step.bootstrapNetworkComponents, bootstrapNetworkComponents md env nodeOptions),
    (Step.bootstrapIdentityComponents, bootstrapIdentityComponents),
    (Step.bootstrapDiscoveryComponents, env.bootstrapDiscoveryComponents.run),
    (Step.bootstrapLocationComponents, bootstrapLocationComponents env nodeOptions),
    (Step.bootstrapAuthenticator, bootstrapAuthenticator env),
    (Step.bootstrapUIServer, env.bootstrapUIServer.runVoid),
    (Step.bootstrapMMN, env.bootstrapMMN.runVoid),
    (Step.bootstrapNATComponents, bootstrapNATComponents env nodeOptions),
    (Step.bootstrapP2P, bootstrapP2P cfg),
    (Step.bootstrapServices, env.bootstrapServices.run),
    (Step.bootstrapQualityComponents, bootstrapQualityComponents env nodeOptions.Quality),
    (Step.bootstrapNodeComponents, bootstrapNodeComponents env nodeOptions),
    (Step.registerConnections, env.registerConnections.runVoid),
    (Step.handleConnStateChange, handleConnStateChangeStep env),
    (Step.nodeStart, nodeStart env),
    (Step.enableEventPublishing, enableEventPublishing) ]

/-- `func (di *Dependencies) Bootstrap(nodeOptions node.Options) error`, run on
the container `di`. -/
def Bootstrap (md : Metadata) (cfg : Config) (env : BootOutcomes) (nodeOptions : Options)
    (di : Dependencies) : BootResult :=
  runSteps (bootstrapSteps md cfg env nodeOptions) di none

/-- The order of the steps of `Bootstrap`. -/
def stepOrder : List Step :=
  [Step.setup, Step.createTequilaListener, Step.directoriesCheck, Step.bootstrapFirewall,
   Step.bootstrapEventBus, Step.bootstrapStorage, Step.bootstrapNetworkComponents,
   Step.bootstrapIdentityComponents, Step.bootstrapDiscoveryComponents,
   Step.bootstrapLocationComponents, Step.bootstrapAuthenticator, Step.bootstrapUIServer,
   Step.bootstrapMMN, Step.bootstrapNATComponents, Step.bootstrapP2P, Step.bootstrapServices,
   Step.bootstrapQualityComponents, Step.bootstrapNodeComponents, Step.registerConnections,
   Step.handleConnStateChange, Step.nodeStart, Step.enableEventPublishing]

/-! ## Sample inputs for `Bootstrap` -/

/-- An external stage that assigns a component to each of the given handles and
returns nil. -/
def ExternalStage.populating (fs : List Field) : ExternalStage :=
  { assigns := fs.map (fun f => (f, some f.component)), err := none }

/-- Collaborator outcomes in which every call succeeds and every call that
returns a handle returns a component. Each method of `Dependencies` whose body
is outside the two files is taken to assign the handles that no statement of
`cmd/di.go` assigns and that `cmd/di.go` reads after calling it. -/
def BootOutcomes.allSucceed : BootOutcomes where
  NewNoopListener := (some { addr := 100 }, none)
  netListen := (some { addr := 101 }, none)
  DirectoriesCheck := none
  OutgoingFirewallSetup := none
  ServiceFirewallSetup := none
  GetOutboundIPAsString := none
  BlockNonTunnelTraffic := none
  NewStorage := none
  RunMigrations := none
  SessionStorageSubscribe := none
  NetworkFirewallAllow := none
  NetworkServiceFirewallAllow := none
  ParseServerURI := none
  BrokerServiceFirewallAllow := none
  BrokerConnect := (some Field.BrokerConnection.component, none)
  NewReconnectableEthClient := (some Field.EtherClient.component, none)
  NewIdentityRegistryContract := (some Field.IdentityRegistry.component, none)
  IdentityRegistrySubscribe := none
  bootstrapDiscoveryComponents :=
    ExternalStage.populating
      [Field.DiscoveryFactory, Field.ProposalRepository, Field.DiscoveryWorker]
  LocationFirewallAllow := none
  LocationServiceFirewallAllow := none
  NewBuiltInResolver := none
  NewExternalDBResolver := none
  OracleFirewallAllow := none
  OracleServiceFirewallAllow := none
  LocationSubscribeConnectionState := none
  LocationSubscribeNode := none
  NewJWTEncryptionKey := none
  bootstrapUIServer := ExternalStage.populating [Field.UIServer]
  bootstrapMMN := ExternalStage.populating []
  NATTrackerSubscribe := none
  bootstrapServices :=
    ExternalStage.populating
      [Field.ServiceRegistry, Field.ServiceSessionStorage, Field.PolicyOracle,
       Field.ServicesManager, Field.NATService]
  QualityFirewallAllow := none
  QualityServiceFirewallAllow := none
  QualitySenderSubscribe := none
  NATSenderSubscribe := none
  BandwidthTrackerSubscribe := none
  StatisticsReporterSubscribe := none
  bootstrapAccountantPromiseSettler := ExternalStage.populating [Field.AccountantPromiseSettler]
  bootstrapProviderRegistrar := ExternalStage.populating [Field.ProviderRegistrar]
  ConsumerBalanceTrackerSubscribe := none
  NewReporter := none
  StateKeeperSubscribe := none
  AddRoutesForSSE := none
  registerConnections := ExternalStage.populating []
  ConnStateSubscribe := none
  NodeStart := none

/-- Network presets with three distinct sets of addresses. -/
def Metadata.sample : Metadata :=
  { DefaultNetwork :=
      { MysteriumAPIAddress := "https://api.default", BrokerAddress := "nats://broker.default",
        EtherClientRPC := "https://eth.default" },
    TestnetDefinition :=
      { MysteriumAPIAddress := "https://api.testnet", BrokerAddress := "nats://broker.testnet",
        EtherClientRPC := "https://eth.testnet" },
    LocalnetDefinition :=
      { MysteriumAPIAddress := "http://localhost/api", BrokerAddress := "localhost",
        EtherClientRPC := "http://localhost:8545" } }

/-- Flags: port mapping and incoming firewall on, profiling off. -/
def Config.sample : Config :=
  { FlagPortMapping := true, FlagIncomingFirewall := true, FlagPProfEnable := false }

/-- Options of a node with the API enabled on port 4050, the default network,
a manual location and no quality transport. -/
def Options.sample : Options :=
  { TequilapiEnabled := true,
    TequilapiPort := 4050,
    Firewall := { BlockAlways := false },
    OptionsNetwork :=
      { Testnet := false, Localnet := false,
        MysteriumAPIAddress := "https://api.default",
        BrokerAddress := "nats://broker.default",
        EtherClientRPC := "https://eth.default" },
    Location := { Typ := LocationType.Manual },
    ExperimentNATPunching := false,
    Quality := { Typ := QualityType.None } }

/-! ## Specification-side definitions for `Bootstrap` -/

/-- The field read by an event that reads a handle while it is still nil. -/
def StageEvent.unpopulatedRead : StageEvent → Option Field
  | StageEvent.read f false => some f
  | _ => none

/-- The reads of a run that found the handle unpopulated: the step and the field
of each, in order. -/
def unpopulatedReads : List StepRecord → List (Step × Field)
  | [] => []
  | rec :: rest =>
    rec.events.filterMap (fun ev => ev.unpopulatedRead.map (fun f => (rec.step, f))) ++
    unpopulatedReads rest

/-- The event assigns one of the three network clients that
`bootstrapNetworkComponents` builds: the Mysterium API client, the broker
connection, the Ethereum client. -/
def StageEvent.assignsNetworkClient : StageEvent → Bool
  | StageEvent.assign Field.MysteriumAPI _ => true
  | StageEvent.assign Field.BrokerConnection _ => true
  | StageEvent.assign Field.EtherClient _ => true
  | _ => false

/-- The steps of `Bootstrap` up to and including the firewall stage, and the two
steps between it and the network stage. -/
def stepsBeforeNetwork : List Step :=
  [Step.setup, Step.createTequilaListener, Step.directoriesCheck, Step.bootstrapFirewall,
   Step.bootstrapEventBus, Step.bootstrapStorage]

/-- The network preset selected by the testnet and localnet flags. -/
def selectedPreset (md : Metadata) (optionsNetwork : OptionsNetwork) : NetworkDefinition :=
  if optionsNetwork.Testnet = true then md.TestnetDefinition
  else if optionsNetwork.Localnet = true then md.LocalnetDefinition
  else md.DefaultNetwork

/-- One address of the resulting network definition: the option's value when it
differs from the default preset's value, the selected preset's value otherwise. -/
def overridden (option default selected : String) : String :=
  if option ≠ default then option else selected

/-! ## Theorems: `Shutdown` -/

theorem errs_callVoid (st : ShutdownState) (c : TeardownCall) :
    (st.callVoid c).errs = st.errs := rfl

theorem calls_callVoid (st : ShutdownState) (c : TeardownCall) :
    (st.callVoid c).calls = st.calls ++ [c] := rfl

theorem errs_callCollecting (st : ShutdownState) (c : TeardownCall) (r : Option Error) :
    (st.callCollecting c r).errs = st.errs ++ r.toList := by
  cases r <;> simp [ShutdownState.callCollecting]

theorem calls_callCollecting (st : ShutdownState) (c : TeardownCall) (r : Option Error) :
    (st.callCollecting c r).calls = st.calls ++ [c] := by
  cases r <;> simp [ShutdownState.callCollecting]

theorem errs_guarded_void (h : Option Handle) (st : ShutdownState) (c : TeardownCall) :
    (if h.isSome then st.callVoid c else st).errs = st.errs := by
  split <;> rfl

theorem calls_guarded_void (h : Option Handle) (st : ShutdownState) (c : TeardownCall) :
    (if h.isSome then st.callVoid c else st).calls = st.calls ++ callIf h.isSome c := by
  cases h <;> simp [callIf, calls_callVoid]

theorem errs_guarded_collecting (h : Option Handle) (st : ShutdownState) (c : TeardownCall)
    (r : Option Error) :
    (if h.isSome then st.callCollecting c r else st).errs = st.errs ++ attemptedFailure h r := by
  cases h <;> simp [attemptedFailure, errs_callCollecting]

theorem calls_guarded_collecting (h : Option Handle) (st : ShutdownState) (c : TeardownCall)
    (r : Option Error) :
    (if h.isSome then st.callCollecting c r else st).calls = st.calls ++ callIf h.isSome c := by
  cases h <;> simp [callIf, calls_callCollecting]

/-- The slice `errs` at the end of the body holds the errors of the attempted
failing steps, in source order. -/
theorem shutdownBody_errs (out : TeardownOutcomes) (di : Dependencies) :
    (shutdownBody out di).errs = attemptedFailures out di := by
  simp only [shutdownBody, errs_guarded_collecting, errs_guarded_void, errs_callVoid,
    attemptedFailures, List.nil_append]

/-- The calls made by the body are those of the plan of the populated pattern. -/
theorem shutdownBody_calls (out : TeardownOutcomes) (di : Dependencies) :
    (shutdownBody out di).calls = teardownPlan di.populated := by
  simp only [shutdownBody, calls_guarded_collecting, calls_guarded_void, calls_callVoid,
    teardownPlan, Dependencies.populated, List.nil_append, List.append_assoc]

/-- The deferred loop run from an arbitrary accumulator. -/
theorem shutdownDeferred_foldl (errs : List Error) (logs : List LogEntry) (err : Option Error) :
    errs.foldl
      (fun acc e =>
        (acc.1 ++ [shutdownFailedLog e],
         match acc.2 with
         | none => some e
         | some prev => some prev))
      (logs, err)
    = (logs ++ errs.map shutdownFailedLog,
       match err with
       | none => errs.head?
       | some prev => some prev) := by
  induction errs generalizing logs err with
  | nil => cases err <;> simp
  | cons e es ih =>
    rw [List.foldl_cons, ih]
    cases err <;> simp

/-- With the named result nil at `return nil`, the deferred function logs every
collected error and leaves the first of them in the named result. -/
theorem shutdownDeferred_nil (errs : List Error) :
    shutdownDeferred errs none = (errs.map shutdownFailedLog, errs.head?) := by
  unfold shutdownDeferred
  rw [shutdownDeferred_foldl]
  simp

theorem Shutdown_err (out : TeardownOutcomes) (di : Dependencies) :
    (Shutdown out di).err = (attemptedFailures out di).head? := by
  simp [Shutdown, shutdownDeferred_nil, shutdownBody_errs]

theorem Shutdown_logs (out : TeardownOutcomes) (di : Dependencies) :
    (Shutdown out di).logs = (attemptedFailures out di).map shutdownFailedLog := by
  simp [Shutdown, shutdownDeferred_nil, shutdownBody_errs]

theorem Shutdown_calls (out : TeardownOutcomes) (di : Dependencies) :
    (Shutdown out di).calls = teardownPlan di.populated := by
  simp [Shutdown, shutdownBody_calls]

theorem attemptedFailure_eq_nil (h : Option Handle) (r : Option Error) :
    attemptedFailure h r = [] ↔ (h.isSome = true → r = none) := by
  cases h <;> cases r <;> simp [attemptedFailure]

theorem mem_callIf (b : Bool) (c d : TeardownCall) : d ∈ callIf b c ↔ (b = true ∧ d = c) := by
  cases b <;> simp [callIf]

/-- C1: `Shutdown` returns nil exactly when none of the error-returning teardown
steps it attempts (ServicesManager.Kill, NATService.Disable, Node.Kill,
Storage.Close, each attempted only when its handle is populated) fails;
in every case it returns the first element, if any, of the list of the errors
of the attempted failing steps taken in that order; and on the container with
every handle absent it returns nil. -/
theorem Shutdown_returns_first_failure (out : TeardownOutcomes) (di : Dependencies) :
    ((Shutdown out di).err = none ↔
      ((di.ServicesManager.isSome = true → out.ServicesManagerKill = none) ∧
       (di.NATService.isSome = true → out.NATServiceDisable = none) ∧
       (di.Node.isSome = true → out.NodeKill = none) ∧
       (di.Storage.isSome = true → out.StorageClose = none))) ∧
    (Shutdown out di).err = (attemptedFailures out di).head? ∧
    (Shutdown out di).logs = (attemptedFailures out di).map shutdownFailedLog ∧
    (Shutdown out Dependencies.empty).err = none := by
  refine ⟨?_, Shutdown_err out di, Shutdown_logs out di, ?_⟩
  · rw [Shutdown_err, List.head?_eq_none_iff]
    simp only [attemptedFailures, List.append_eq_nil, attemptedFailure_eq_nil, and_assoc]
  · rw [Shutdown_err]
    rfl

/-- C2: the sequence of teardown calls `Shutdown` makes is the plan of the
populated pattern of the container, whatever the teardown steps return: it is
the same under any two outcome records, and the teardown of every populated
handle is in it (as is `firewall.Reset`), also when every error-returning step
fails. -/
theorem Shutdown_calls_independent_of_failures (out : TeardownOutcomes) (di : Dependencies) :
    (Shutdown out di).calls = teardownPlan di.populated ∧
    (∀ out2 : TeardownOutcomes, (Shutdown out2 di).calls = (Shutdown out di).calls) ∧
    (di.ServicesManager.isSome = true →
      TeardownCall.ServicesManagerKill ∈ (Shutdown out di).calls) ∧
    (di.PolicyOracle.isSome = true →
      TeardownCall.PolicyOracleStop ∈ (Shutdown out di).calls) ∧
    (di.NATService.isSome = true →
      TeardownCall.NATServiceDisable ∈ (Shutdown out di).calls) ∧
    (di.DiscoveryWorker.isSome = true →
      TeardownCall.DiscoveryWorkerStop ∈ (Shutdown out di).calls) ∧
    (di.BrokerConnection.isSome = true →
      TeardownCall.BrokerConnectionClose ∈ (Shutdown out di).calls) ∧
    (di.QualityClient.isSome = true →
      TeardownCall.QualityClientStop ∈ (Shutdown out di).calls) ∧
    (di.ServiceFirewall.isSome = true →
      TeardownCall.ServiceFirewallTeardown ∈ (Shutdown out di).calls) ∧
    TeardownCall.firewallReset ∈ (Shutdown out di).calls ∧
    (di.Node.isSome = true → TeardownCall.NodeKill ∈ (Shutdown out di).calls) ∧
    (di.Storage.isSome = true → TeardownCall.StorageClose ∈ (Shutdown out di).calls) := by
  refine ⟨Shutdown_calls out di, fun out2 => ?_, ?_⟩
  · rw [Shutdown_calls, Shutdown_calls]
  · rw [Shutdown_calls]
    simp only [teardownPlan, Dependencies.populated, List.mem_append, mem_callIf,
      List.mem_singleton]
    refine ⟨?_, ?_, ?_, ?_, ?_, ?_, ?_, ?_, ?_, ?_⟩ <;> simp +contextual

/-- C3, counterexample: on the container whose only populated handle is the
storage, the first `Shutdown` closes the storage and leaves the handle
populated, and the second `Shutdown` closes the same storage again. -/
theorem Shutdown_twice_closes_storage_twice :
    (Shutdown TeardownOutcomes.allSucceed storageOnly).calls
      = [TeardownCall.firewallReset, TeardownCall.StorageClose] ∧
    (Shutdown TeardownOutcomes.allSucceed storageOnly).di.Storage = some { addr := 1 } ∧
    (Shutdown TeardownOutcomes.allSucceed
        (Shutdown TeardownOutcomes.allSucceed storageOnly).di).calls
      = [TeardownCall.firewallReset, TeardownCall.StorageClose] := by
  refine ⟨rfl, rfl, rfl⟩

/-- C3, amended: `Shutdown` leaves the container as it found it (it clears no
handle), so a second call in a row makes exactly the teardown calls of the
first, whatever the steps return in either call; in the second call, as in the
first, a handle-guarded teardown is made exactly when its handle was populated
before the first call. -/
theorem Shutdown_twice_repeats_teardown (out1 out2 : TeardownOutcomes) (di : Dependencies) :
    (Shutdown out1 di).di = di ∧
    (Shutdown out2 (Shutdown out1 di).di).calls = (Shutdown out1 di).calls ∧
    (TeardownCall.ServicesManagerKill ∈ (Shutdown out2 (Shutdown out1 di).di).calls
      ↔ di.ServicesManager.isSome = true) ∧
    (TeardownCall.PolicyOracleStop ∈ (Shutdown out2 (Shutdown out1 di).di).calls
      ↔ di.PolicyOracle.isSome = true) ∧
    (TeardownCall.NATServiceDisable ∈ (Shutdown out2 (Shutdown out1 di).di).calls
      ↔ di.NATService.isSome = true) ∧
    (TeardownCall.DiscoveryWorkerStop ∈ (Shutdown out2 (Shutdown out1 di).di).calls
      ↔ di.DiscoveryWorker.isSome = true) ∧
    (TeardownCall.BrokerConnectionClose ∈ (Shutdown out2 (Shutdown out1 di).di).calls
      ↔ di.BrokerConnection.isSome = true) ∧
    (TeardownCall.QualityClientStop ∈ (Shutdown out2 (Shutdown out1 di).di).calls
      ↔ di.QualityClient.isSome = true) ∧
    (TeardownCall.ServiceFirewallTeardown ∈ (Shutdown out2 (Shutdown out1 di).di).calls
      ↔ di.ServiceFirewall.isSome = true) ∧
    (TeardownCall.NodeKill ∈ (Shutdown out2 (Shutdown out1 di).di).calls
      ↔ di.Node.isSome = true) ∧
    (TeardownCall.StorageClose ∈ (Shutdown out2 (Shutdown out1 di).di).calls
      ↔ di.Storage.isSome = true) := by
  have hdi : (Shutdown out1 di).di = di := rfl
  rw [hdi]
  refine ⟨rfl, ?_, ?_⟩
  · rw [Shutdown_calls, Shutdown_calls]
  · rw [Shutdown_calls]
    simp only [teardownPlan, Dependencies.populated, List.mem_append, mem_callIf,
      List.mem_singleton]
    refine ⟨?_, ?_, ?_, ?_, ?_, ?_, ?_, ?_, ?_⟩ <;> simp

/-! ## Theorems: the reconnect watcher -/

/-- The calls of one handler invocation: the fan-out on an edge, nothing otherwise. -/
theorem connStateHandler_calls (o : Option Error) (latest : State)
    (e : AppEventConnectionState) :
    (connStateHandler o latest e).calls
      = if isEdge latest e.State then reconnectFanOut else [] := by
  rcases e with ⟨st, si⟩
  cases st <;> cases latest <;> simp [connStateHandler, isEdge, reconnectFanOut]

/-- The tracked state after one handler invocation. -/
theorem connStateHandler_latestState (o : Option Error) (latest : State)
    (e : AppEventConnectionState) :
    (connStateHandler o latest e).latestState
      = if e.State.isConnectedOrNotConnected then e.State else latest := by
  rcases e with ⟨st, si⟩
  cases st <;> cases latest <;>
    simp [connStateHandler, State.isConnectedOrNotConnected]

/-- The tracked state after a run, in terms of the observed states. -/
theorem feed_append (s : State) (pre rest : List Delivery) :
    feed s (pre ++ rest)
      = feed s pre ++
        feed (((pre.map Delivery.state).reverse.find?
                State.isConnectedOrNotConnected).getD s) rest := by
  induction pre generalizing s with
  | nil => simp [feed]
  | cons d pre ih =>
    simp only [List.cons_append, feed, List.map_cons, List.reverse_cons, List.find?_append,
      List.append_eq]
    rw [ih, connStateHandler_latestState]
    congr 2
    cases h : List.find? State.isConnectedOrNotConnected (List.map Delivery.state pre).reverse with
    | some x => simp
    | none =>
      by_cases hd : d.event.State.isConnectedOrNotConnected = true
      · simp [Delivery.state, hd]
      · simp [Delivery.state, hd]

theorem feed_length (s : State) (ds : List Delivery) : (feed s ds).length = ds.length := by
  induction ds generalizing s with
  | nil => rfl
  | cons d ds ih => simp [feed, ih]

/-- The most recent Connected/NotConnected observation is Connected or NotConnected. -/
theorem mostRecentConnectedOrNot_relevant (earlier : List State) :
    (mostRecentConnectedOrNot earlier).isConnectedOrNotConnected = true := by
  unfold mostRecentConnectedOrNot
  cases h : earlier.reverse.find? State.isConnectedOrNotConnected with
  | some x => simpa using List.find?_some h
  | none => rfl

/-- Against a tracked state that is Connected or NotConnected, an edge is a
Connected/NotConnected observation that differs from it. -/
theorem isEdge_eq_specTriggers (earlier : List State) (s : State) :
    isEdge (mostRecentConnectedOrNot earlier) s = specTriggers earlier s := by
  have h := mostRecentConnectedOrNot_relevant earlier
  unfold specTriggers
  generalize mostRecentConnectedOrNot earlier = m at h ⊢
  cases m <;> cases s <;> first | rfl | exact absurd h (by decide)

/-- The calls made at the observation `d` of the sequence `pre ++ d :: post`. -/
theorem watcherCalls_at (pre : List Delivery) (d : Delivery) (post : List Delivery) :
    (watcherCalls (pre ++ d :: post))[pre.length]?
      = some (if specTriggers (pre.map Delivery.state) d.state
              then reconnectFanOut else []) := by
  unfold watcherCalls
  rw [feed_append, List.map_append]
  have hlen : (List.map (fun r => r.calls) (feed State.NotConnected pre)).length = pre.length := by
    simp [feed_length]
  rw [List.getElem?_append_right (by omega), hlen]
  simp only [feed, List.map_cons, Nat.sub_self, List.getElem?_cons_zero]
  rw [connStateHandler_calls]
  have := isEdge_eq_specTriggers (pre.map Delivery.state) d.state
  unfold mostRecentConnectedOrNot at this
  simp only [Delivery.state] at this ⊢
  rw [this]

/-- The calls of a run depend on the deliveries only through their states. -/
theorem feed_calls_congr (s : State) (ds ds2 : List Delivery)
    (h : ds.map Delivery.state = ds2.map Delivery.state) :
    (feed s ds).map (fun r => r.calls) = (feed s ds2).map (fun r => r.calls) := by
  induction ds generalizing s ds2 with
  | nil =>
    cases ds2 with
    | nil => rfl
    | cons d2 ds2 => simp at h
  | cons d ds ih =>
    cases ds2 with
    | nil => simp at h
    | cons d2 ds2 =>
      simp only [List.map_cons, List.cons.injEq, Delivery.state] at h
      simp only [feed, List.map_cons, connStateHandler_calls, connStateHandler_latestState, h.1]
      rw [ih _ ds2 h.2]

/-- After a Connected/NotConnected observation followed only by observations
that are neither, that observation is the most recent one that counts. -/
theorem mostRecentConnectedOrNot_after_blips (earlier blips : List State) (s : State)
    (hs : s.isConnectedOrNotConnected = true)
    (hb : ∀ b ∈ blips, b.isConnectedOrNotConnected = false) :
    mostRecentConnectedOrNot (earlier ++ s :: blips) = s := by
  unfold mostRecentConnectedOrNot
  have hnone : List.find? State.isConnectedOrNotConnected blips.reverse = none := by
    rw [List.find?_eq_none]
    intro x hx
    simp [hb x (List.mem_reverse.mp hx)]
  simp [List.find?_append, hnone, List.find?_cons, hs]

/-- C4: `handleConnStateChange` registers its handler with the tracked state
NotConnected. Fed to a freshly registered handler, a
sequence of connectivity events triggers the reconnect fan-out at exactly those
observations whose state is Connected or NotConnected and differs from the most
recent earlier Connected/NotConnected observation (NotConnected when there is
none), and makes no call at the others. Hence a Connected observation that
follows a Connected one with only Connecting/Disconnecting observations in
between makes no call, and any sequence with states NotConnected, Connecting,
Connected, Connecting, NotConnected fans out exactly at its 3rd and 5th
observations. -/
theorem watcher_fans_out_exactly_on_edges :
    (∀ (di : Dependencies) (h : Handle),
      handleConnStateChange { di with HTTPClient := some h } none
        = Except.ok State.NotConnected) ∧
    (∀ (pre : List Delivery) (d : Delivery) (post : List Delivery),
      (watcherCalls (pre ++ d :: post))[pre.length]?
        = some (if (d.state = State.Connected ∨ d.state = State.NotConnected) ∧
                   d.state ≠ mostRecentConnectedOrNot (pre.map Delivery.state)
                then reconnectFanOut else [])) ∧
    (∀ (pre : List Delivery) (c1 : Delivery) (blips : List Delivery) (c2 : Delivery)
        (post : List Delivery),
      c1.state = State.Connected →
      (∀ b ∈ blips, b.state = State.Connecting ∨ b.state = State.Disconnecting) →
      c2.state = State.Connected →
      (watcherCalls (pre ++ c1 :: (blips ++ c2 :: post)))[pre.length + 1 + blips.length]?
        = some []) ∧
    (∀ ds : List Delivery,
      ds.map Delivery.state
        = [State.NotConnected, State.Connecting, State.Connected, State.Connecting,
           State.NotConnected] →
      watcherCalls ds = [[], [], reconnectFanOut, [], reconnectFanOut]) := by
  refine ⟨fun _ _ => rfl, ?_, ?_, ?_⟩
  · intro pre d post
    rw [watcherCalls_at]
    congr 1
    unfold specTriggers
    generalize mostRecentConnectedOrNot (pre.map Delivery.state) = m
    cases d.state <;> cases m <;> rfl
  · intro pre c1 blips c2 post h1 hb h2
    have hsplit : pre ++ c1 :: (blips ++ c2 :: post) = (pre ++ c1 :: blips) ++ c2 :: post := by
      simp
    have hlen : pre.length + 1 + blips.length = (pre ++ c1 :: blips).length := by
      simp only [List.length_append, List.length_cons]
      omega
    rw [hsplit, hlen, watcherCalls_at]
    have hm : mostRecentConnectedOrNot (List.map Delivery.state (pre ++ c1 :: blips))
        = State.Connected := by
      rw [List.map_append, List.map_cons, h1]
      apply mostRecentConnectedOrNot_after_blips
      · rfl
      · intro b hb2
        obtain ⟨d, hd, rfl⟩ := List.mem_map.mp hb2
        rcases hb d hd with h | h <;> rw [h] <;> rfl
    unfold specTriggers
    rw [hm, h2]
    rfl
  · intro ds hds
    have hc := feed_calls_congr State.NotConnected ds
      ([State.NotConnected, State.Connecting, State.Connected, State.Connecting,
        State.NotConnected].map Delivery.ofState) (by rw [hds]; rfl)
    unfold watcherCalls
    rw [hc]
    rfl

/-- C5: one invocation of the handler, with tracked state `latest` and event
state `e.State`, calls HTTPClient.Reconnect, QualityClient.Reconnect,
BrokerConnector.ReconnectAll and EtherClient.Reconnect, each exactly once and in
that order, whatever EtherClient.Reconnect returns, when `latest` is NotConnected
and the event Connected or `latest` is Connected and the event NotConnected;
otherwise it makes no call. -/
theorem connStateHandler_fans_out_iff_edge (etherReconnect : Option Error) (latest : State)
    (e : AppEventConnectionState) :
    (connStateHandler etherReconnect latest e).calls
      = if (latest = State.NotConnected ∧ e.State = State.Connected) ∨
           (latest = State.Connected ∧ e.State = State.NotConnected)
        then [ReconnectCall.HTTPClientReconnect, ReconnectCall.QualityClientReconnect,
              ReconnectCall.BrokerConnectorReconnectAll, ReconnectCall.EtherClientReconnect]
        else [] := by
  rcases e with ⟨st, si⟩
  cases st <;> cases latest <;> simp [connStateHandler]

/-- C6, counterexample: from the initial state, the sequence Connected,
Connected triggers one fan-out, at its first observation, not zero. -/
theorem watcher_connected_connected_fans_out_once :
    watcherCalls [Delivery.ofState State.Connected, Delivery.ofState State.Connected]
      = [reconnectFanOut, []] ∧
    (watcherCalls [Delivery.ofState State.Connected, Delivery.ofState State.Connected]).count
      reconnectFanOut ≠ 0 := by
  refine ⟨rfl, by decide⟩

/-- C6, amended: fed to a freshly registered handler, any sequence of two
Connected observations triggers exactly one fan-out, at the first observation
(the edge from the initial NotConnected); the second observation makes no call. -/
theorem watcher_connected_connected (ds : List Delivery)
    (h : ds.map Delivery.state = [State.Connected, State.Connected]) :
    watcherCalls ds = [reconnectFanOut, []] := by
  have hc := feed_calls_congr State.NotConnected ds
    ([State.Connected, State.Connected].map Delivery.ofState) (by rw [h]; rfl)
  unfold watcherCalls
  rw [hc]
  rfl

/-- C6, amended, at a concrete input: two Connected deliveries whose
EtherClient.Reconnect fails. -/
theorem watcher_connected_connected_witness :
    List.map Delivery.state
        [{ Delivery.ofState State.Connected with etherReconnect := some { msg := "dial" } },
         { Delivery.ofState State.Connected with etherReconnect := some { msg := "dial" } }]
      = [State.Connected, State.Connected] ∧
    watcherCalls
        [{ Delivery.ofState State.Connected with etherReconnect := some { msg := "dial" } },
         { Delivery.ofState State.Connected with etherReconnect := some { msg := "dial" } }]
      = [reconnectFanOut, []] :=
  ⟨rfl, watcher_connected_connected _ rfl⟩

/-- C7, counterexample: with Connected tracked, a Connecting event leaves the
tracked state Connected; it does not become the event's state. -/
theorem connStateHandler_keeps_state_on_connecting :
    (connStateHandler none State.Connected
        (Delivery.ofState State.Connecting).event).latestState = State.Connected ∧
    (connStateHandler none State.Connected
        (Delivery.ofState State.Connecting).event).latestState
      ≠ (Delivery.ofState State.Connecting).event.State := by
  refine ⟨rfl, by decide⟩

/-- C7, amended: after the handler has processed an event whose state is
Connected or NotConnected, the tracked state equals that event's state; after an
event of any other state (Connecting, Disconnecting) the tracked state is what it
was before. The tracked state is the last observed Connected/NotConnected state. -/
theorem connStateHandler_tracks_last_connected_or_not (etherReconnect : Option Error)
    (latest : State) (e : AppEventConnectionState) :
    (connStateHandler etherReconnect latest e).latestState
      = if e.State = State.Connected ∨ e.State = State.NotConnected then e.State
        else latest := by
  rcases e with ⟨st, si⟩
  cases st <;> cases latest <;> simp [connStateHandler]

/-! ## Theorems: the quality sender -/

/-- What `sendEvent` hands to the transport. -/
theorem sendEvent_sent (sender : Sender) (rt : Runtime) (name : String) (ctx : Context) :
    (sender.sendEvent rt name ctx).sent
      = [{ Application := expectedApplication sender rt, EventName := name,
           CreatedAt := rt.nowUnix, Context := ctx }] := by
  simp only [Sender.sendEvent]
  cases sender.Transport.SendEvent
      { Application := { Name := appName, Version := sender.AppVersion, OS := rt.GOOS,
                         Arch := rt.GOARCH },
        EventName := name, CreatedAt := rt.nowUnix, Context := ctx } <;> rfl

/-- With an always-failing transport, `sendEvent` logs one warning, carrying the
transport's error for the envelope it tried to send. -/
theorem sendEvent_failing (fail : Event → Error) (v : String) (m : Handle)
    (loc : OriginResolver) (rt : Runtime) (name : String) (ctx : Context) :
    (NewSender (failingTransport fail) v m loc).sendEvent rt name ctx
      = { sent := [{ Application := { Name := "myst", Version := v, OS := rt.GOOS,
                                      Arch := rt.GOARCH },
                     EventName := name, CreatedAt := rt.nowUnix, Context := ctx }],
          logs := [{ level := LogLevel.warn,
                     err := some (fail { Application := { Name := "myst", Version := v,
                                                          OS := rt.GOOS, Arch := rt.GOARCH },
                                         EventName := name, CreatedAt := rt.nowUnix,
                                         Context := ctx }),
                     msg := "Failed to send metric: " ++ name }] } := rfl

/-- The lines `originCountry` logs carry no error, so none of them is a
send-failure warning. -/
theorem sendFailureWarnings_originCountry (sender : Sender) :
    sendFailureWarnings sender.originCountry.2 = [] := by
  unfold Sender.originCountry
  rcases sender.location.GetOrigin with ⟨origin, _ | err⟩ <;> rfl

theorem sendFailureWarnings_append (l1 l2 : List LogEntry) :
    sendFailureWarnings (l1 ++ l2) = sendFailureWarnings l1 ++ sendFailureWarnings l2 := by
  simp [sendFailureWarnings]

/-- C8: for each of the three session-scoped handlers and every event,
`Transport.SendEvent` is called exactly once when the event's
`SessionInfo.IsActive()` is true, and when it is false the handler calls it zero
times and logs nothing. -/
theorem session_handlers_send_iff_active (sender : Sender) (rt : Runtime)
    (e1 : AppEventConnectionStatistics) (e2 : AppEventConnectionState)
    (e3 : AppEventConnectionSession) :
    ((sender.sendSessionData rt e1).sent.length
        = if e1.SessionInfo.IsActive = true then 1 else 0) ∧
    (e1.SessionInfo.IsActive = false →
      sender.sendSessionData rt e1 = { sent := [], logs := [] }) ∧
    ((sender.sendConnStateEvent rt e2).sent.length
        = if e2.SessionInfo.IsActive = true then 1 else 0) ∧
    (e2.SessionInfo.IsActive = false →
      sender.sendConnStateEvent rt e2 = { sent := [], logs := [] }) ∧
    ((sender.sendSessionEvent rt e3).sent.length
        = if e3.SessionInfo.IsActive = true then 1 else 0) ∧
    (e3.SessionInfo.IsActive = false →
      sender.sendSessionEvent rt e3 = { sent := [], logs := [] }) := by
  refine ⟨?_, ?_, ?_, ?_, ?_, ?_⟩
  · cases h : e1.SessionInfo.IsActive <;> simp [Sender.sendSessionData, h, sendEvent_sent]
  · intro h
    simp [Sender.sendSessionData, h]
  · cases h : e2.SessionInfo.IsActive <;> simp [Sender.sendConnStateEvent, h, sendEvent_sent]
  · intro h
    simp [Sender.sendConnStateEvent, h]
  · cases h : e3.SessionInfo.IsActive <;> simp [Sender.sendSessionEvent, h, sendEvent_sent]
  · intro h
    simp [Sender.sendSessionEvent, h]

/-- C9: every envelope the sender hands to the transport has the application
metadata name "myst", the sender's AppVersion, the runtime's OS and Arch; the
event name of the fixed mapping (statistics to "session_data", connection state
and connection session to "session_event", proposal to "proposal_event", node
event to "startup", NAT mapping success and failure to "nat_mapping"); CreatedAt
equal to the Unix seconds read when the send is made; and as Context the payload
built by the handler, the session identifiers copied unchanged from the event.
The session-scoped handlers hand over exactly this one envelope for an active
session and none otherwise; the other entry points hand over exactly one, the
failure method when the error passed to it is non-nil (on a nil error it panics
before handing anything over). -/
theorem sender_envelopes (sender : Sender) (rt : Runtime)
    (e1 : AppEventConnectionStatistics) (e2 : AppEventConnectionState)
    (e3 : AppEventConnectionSession) (e4 : Payload) (p : ServiceProposal)
    (stage : String) (gateways : List Gateway) (err : Error) :
    (sender.sendSessionData rt e1).sent
      = (if e1.SessionInfo.IsActive = true then
          [{ Application := expectedApplication sender rt,
             EventName := "session_data",
             CreatedAt := rt.nowUnix,
             Context := Context.sessionData
               { Rx := e1.Stats.BytesReceived, Tx := e1.Stats.BytesSent,
                 sessionContext :=
                   expectedSessionContext e1.SessionInfo sender.originCountry.1 } }]
         else []) ∧
    (sender.sendConnStateEvent rt e2).sent
      = (if e2.SessionInfo.IsActive = true then
          [{ Application := expectedApplication sender rt,
             EventName := "session_event",
             CreatedAt := rt.nowUnix,
             Context := Context.sessionEvent
               { Event := e2.State.toString,
                 sessionContext :=
                   expectedSessionContext e2.SessionInfo sender.originCountry.1 } }]
         else []) ∧
    (sender.sendSessionEvent rt e3).sent
      = (if e3.SessionInfo.IsActive = true then
          [{ Application := expectedApplication sender rt,
             EventName := "session_event",
             CreatedAt := rt.nowUnix,
             Context := Context.sessionEvent
               { Event := e3.Status,
                 sessionContext :=
                   expectedSessionContext e3.SessionInfo sender.originCountry.1 } }]
         else []) ∧
    (sender.sendProposalEvent rt p).sent
      = [{ Application := expectedApplication sender rt,
           EventName := "proposal_event",
           CreatedAt := rt.nowUnix,
           Context := Context.proposal p }] ∧
    (sender.sendStartupEvent rt e4).sent
      = [{ Application := expectedApplication sender rt,
           EventName := "startup",
           CreatedAt := rt.nowUnix,
           Context := Context.nodeStatus e4.Status }] ∧
    (sender.SendNATMappingSuccessEvent rt stage gateways).sent
      = [{ Application := expectedApplication sender rt,
           EventName := "nat_mapping",
           CreatedAt := rt.nowUnix,
           Context := Context.natMapping
             { Stage := stage, Successful := true, ErrorMessage := none,
               Gateways := gateways } }] ∧
    (sender.SendNATMappingFailEvent rt stage gateways (some err)).map (fun out => out.sent)
      = some [{ Application := expectedApplication sender rt,
                EventName := "nat_mapping",
                CreatedAt := rt.nowUnix,
                Context := Context.natMapping
                  { Stage := stage, Successful := false, ErrorMessage := some err.msg,
                    Gateways := gateways } }] ∧
    sender.SendNATMappingFailEvent rt stage gateways none = none := by
  refine ⟨?_, ?_, ?_, ?_, ?_, ?_, ?_, rfl⟩
  · cases h : e1.SessionInfo.IsActive <;>
      simp [Sender.sendSessionData, h, sendEvent_sent, expectedSessionContext,
        ServiceDefinition.GetLocation, sessionDataName]
  · cases h : e2.SessionInfo.IsActive <;>
      simp [Sender.sendConnStateEvent, h, sendEvent_sent, expectedSessionContext,
        ServiceDefinition.GetLocation, sessionEventName]
  · cases h : e3.SessionInfo.IsActive <;>
      simp [Sender.sendSessionEvent, h, sendEvent_sent, expectedSessionContext,
        ServiceDefinition.GetLocation, sessionEventName]
  · simp [Sender.sendProposalEvent, sendEvent_sent, proposalEventName]
  · simp [Sender.sendStartupEvent, sendEvent_sent, startupEventName]
  · simp [Sender.SendNATMappingSuccessEvent, sendEvent_sent, natMappingEventName]
  · simp [Sender.SendNATMappingFailEvent, sendEvent_sent, natMappingEventName]

/-- C10, counterexample: `SendNATMappingFailEvent` called with a nil error does
not return normally: it panics in `err.Error()`, here with a transport whose
`SendEvent` always fails, before any send or log. -/
theorem SendNATMappingFailEvent_nil_error_does_not_return :
    (NewSender (failingTransport (fun _ => { msg := "connection refused" })) "1.0.0"
        { addr := 1 } { GetOrigin := ({ Country := "LT" }, none) }).SendNATMappingFailEvent
        { GOOS := "linux", GOARCH := "amd64", nowUnix := 1573000000 } "port_mapping" [] none
      = none := rfl

/-- C10, amended: with a transport whose `SendEvent` always fails, each of the
five bus handlers and `SendNATMappingSuccessEvent` returns its effects and no
error (the methods have no result through which one could surface), and so does
`SendNATMappingFailEvent` whenever the error passed to it is non-nil; the
warnings that report a failed send are exactly one for each envelope handed to
the transport, each carrying that send's error. For the four entry points that
make no location lookup this warning is the whole log; for the three
session-scoped handlers the log is the lines of the location lookup followed by
that warning, and is empty for an inactive session. -/
theorem sender_failing_transport_one_warning_per_send (fail : Event → Error) (v : String)
    (m : Handle) (loc : OriginResolver) (rt : Runtime)
    (e1 : AppEventConnectionStatistics) (e2 : AppEventConnectionState)
    (e3 : AppEventConnectionSession) (e4 : Payload) (p : ServiceProposal)
    (stage : String) (gateways : List Gateway) (err : Error) :
    (sendFailureWarnings ((NewSender (failingTransport fail) v m loc).sendSessionData rt e1).logs
        = ((NewSender (failingTransport fail) v m loc).sendSessionData rt e1).sent.map
            (fun ev => sendFailureWarning (fail ev) ev) ∧
      ((NewSender (failingTransport fail) v m loc).sendSessionData rt e1).logs
        = (if e1.SessionInfo.IsActive = true then
            (NewSender (failingTransport fail) v m loc).originCountry.2 ++
            ((NewSender (failingTransport fail) v m loc).sendSessionData rt e1).sent.map
              (fun ev => sendFailureWarning (fail ev) ev)
           else [])) ∧
    (sendFailureWarnings
          ((NewSender (failingTransport fail) v m loc).sendConnStateEvent rt e2).logs
        = ((NewSender (failingTransport fail) v m loc).sendConnStateEvent rt e2).sent.map
            (fun ev => sendFailureWarning (fail ev) ev) ∧
      ((NewSender (failingTransport fail) v m loc).sendConnStateEvent rt e2).logs
        = (if e2.SessionInfo.IsActive = true then
            (NewSender (failingTransport fail) v m loc).originCountry.2 ++
            ((NewSender (failingTransport fail) v m loc).sendConnStateEvent rt e2).sent.map
              (fun ev => sendFailureWarning (fail ev) ev)
           else [])) ∧
    (sendFailureWarnings
          ((NewSender (failingTransport fail) v m loc).sendSessionEvent rt e3).logs
        = ((NewSender (failingTransport fail) v m loc).sendSessionEvent rt e3).sent.map
            (fun ev => sendFailureWarning (fail ev) ev) ∧
      ((NewSender (failingTransport fail) v m loc).sendSessionEvent rt e3).logs
        = (if e3.SessionInfo.IsActive = true then
            (NewSender (failingTransport fail) v m loc).originCountry.2 ++
            ((NewSender (failingTransport fail) v m loc).sendSessionEvent rt e3).sent.map
              (fun ev => sendFailureWarning (fail ev) ev)
           else [])) ∧
    (((NewSender (failingTransport fail) v m loc).sendProposalEvent rt p).sent.length = 1 ∧
      ((NewSender (failingTransport fail) v m loc).sendProposalEvent rt p).logs
        = ((NewSender (failingTransport fail) v m loc).sendProposalEvent rt p).sent.map
            (fun ev => sendFailureWarning (fail ev) ev)) ∧
    (((NewSender (failingTransport fail) v m loc).sendStartupEvent rt e4).sent.length = 1 ∧
      ((NewSender (failingTransport fail) v m loc).sendStartupEvent rt e4).logs
        = ((NewSender (failingTransport fail) v m loc).sendStartupEvent rt e4).sent.map
            (fun ev => sendFailureWarning (fail ev) ev)) ∧
    (((NewSender (failingTransport fail) v m loc).SendNATMappingSuccessEvent rt stage
          gateways).sent.length = 1 ∧
      ((NewSender (failingTransport fail) v m loc).SendNATMappingSuccessEvent rt stage
          gateways).logs
        = ((NewSender (failingTransport fail) v m loc).SendNATMappingSuccessEvent rt stage
            gateways).sent.map (fun ev => sendFailureWarning (fail ev) ev)) ∧
    (((NewSender (failingTransport fail) v m loc).SendNATMappingFailEvent rt stage gateways
          (some err)).isSome = true ∧
      ((NewSender (failingTransport fail) v m loc).SendNATMappingFailEvent rt stage gateways
          (some err)).map (fun out => out.sent.length) = some 1 ∧
      ((NewSender (failingTransport fail) v m loc).SendNATMappingFailEvent rt stage gateways
          (some err)).map (fun out => out.logs)
        = ((NewSender (failingTransport fail) v m loc).SendNATMappingFailEvent rt stage
            gateways (some err)).map
              (fun out => out.sent.map (fun ev => sendFailureWarning (fail ev) ev))) := by
  refine ⟨?_, ?_, ?_, ⟨rfl, rfl⟩, ⟨rfl, rfl⟩, ⟨rfl, rfl⟩, ⟨rfl, rfl, rfl⟩⟩
  · cases h : e1.SessionInfo.IsActive
    · simp [Sender.sendSessionData, h, sendFailureWarnings]
    · simp only [Sender.sendSessionData, h, Bool.not_true, Bool.false_eq_true, if_false, if_true,
        sendEvent_failing]
      refine ⟨?_, rfl⟩
      rw [sendFailureWarnings_append, sendFailureWarnings_originCountry]
      rfl
  · cases h : e2.SessionInfo.IsActive
    · simp [Sender.sendConnStateEvent, h, sendFailureWarnings]
    · simp only [Sender.sendConnStateEvent, h, Bool.not_true, Bool.false_eq_true, if_false, if_true,
        sendEvent_failing]
      refine ⟨?_, rfl⟩
      rw [sendFailureWarnings_append, sendFailureWarnings_originCountry]
      rfl
  · cases h : e3.SessionInfo.IsActive
    · simp [Sender.sendSessionEvent, h, sendFailureWarnings]
    · simp only [Sender.sendSessionEvent, h, Bool.not_true, Bool.false_eq_true, if_false, if_true,
        sendEvent_failing]
      refine ⟨?_, rfl⟩
      rw [sendFailureWarnings_append, sendFailureWarnings_originCountry]
      rfl

/-! ## Theorems: consumer country, teardown order -/

/-- The country `originCountry` returns is the one the spec prescribes. -/
theorem originCountry_fst (sender : Sender) :
    sender.originCountry.1 = expectedConsumerCountry sender.location.GetOrigin := by
  unfold Sender.originCountry expectedConsumerCountry
  rcases sender.location.GetOrigin with ⟨origin, _ | err⟩ <;> rfl

/-- C11: for every event handled by `sendSessionData`, `sendConnStateEvent` or
`sendSessionEvent` whose session is active, exactly one envelope is handed to
the transport, and the ConsumerCountry of its context is the Country of the
origin returned by the location lookup when the lookup succeeds and the empty
string when it fails; whether the lookup fails does not change the number of
envelopes. -/
theorem session_handlers_consumer_country (sender : Sender) (rt : Runtime)
    (e1 : AppEventConnectionStatistics) (e2 : AppEventConnectionState)
    (e3 : AppEventConnectionSession) (origin : Origin) (lookupErr : Error) :
    (sender.sendSessionData rt e1).sent
      = (if e1.SessionInfo.IsActive = true then
          [{ Application := expectedApplication sender rt,
             EventName := "session_data",
             CreatedAt := rt.nowUnix,
             Context := Context.sessionData
               { Rx := e1.Stats.BytesReceived, Tx := e1.Stats.BytesSent,
                 sessionContext :=
                   expectedSessionContext e1.SessionInfo
                     (expectedConsumerCountry sender.location.GetOrigin) } }]
         else []) ∧
    (sender.sendConnStateEvent rt e2).sent
      = (if e2.SessionInfo.IsActive = true then
          [{ Application := expectedApplication sender rt,
             EventName := "session_event",
             CreatedAt := rt.nowUnix,
             Context := Context.sessionEvent
               { Event := e2.State.toString,
                 sessionContext :=
                   expectedSessionContext e2.SessionInfo
                     (expectedConsumerCountry sender.location.GetOrigin) } }]
         else []) ∧
    (sender.sendSessionEvent rt e3).sent
      = (if e3.SessionInfo.IsActive = true then
          [{ Application := expectedApplication sender rt,
             EventName := "session_event",
             CreatedAt := rt.nowUnix,
             Context := Context.sessionEvent
               { Event := e3.Status,
                 sessionContext :=
                   expectedSessionContext e3.SessionInfo
                     (expectedConsumerCountry sender.location.GetOrigin) } }]
         else []) ∧
    expectedConsumerCountry (origin, none) = origin.Country ∧
    expectedConsumerCountry (origin, some lookupErr) = "" := by
  refine ⟨?_, ?_, ?_, rfl, rfl⟩
  · cases h : e1.SessionInfo.IsActive <;>
      simp [Sender.sendSessionData, h, sendEvent_sent, expectedSessionContext,
        ServiceDefinition.GetLocation, sessionDataName, originCountry_fst]
  · cases h : e2.SessionInfo.IsActive <;>
      simp [Sender.sendConnStateEvent, h, sendEvent_sent, expectedSessionContext,
        ServiceDefinition.GetLocation, sessionEventName, originCountry_fst]
  · cases h : e3.SessionInfo.IsActive <;>
      simp [Sender.sendSessionEvent, h, sendEvent_sent, expectedSessionContext,
        ServiceDefinition.GetLocation, sessionEventName, originCountry_fst]

/-- C16, counterexample: with every handle populated, `PolicyOracle.Stop` (a
phase 3 call of the spec) is the second call, made before the four phase 2
calls; the phases of the calls in call order are not ascending. -/
theorem Shutdown_policy_oracle_stops_before_network :
    (Shutdown TeardownOutcomes.allSucceed fullyPopulated).calls
      = [TeardownCall.ServicesManagerKill, TeardownCall.PolicyOracleStop,
         TeardownCall.NATServiceDisable, TeardownCall.DiscoveryWorkerStop,
         TeardownCall.BrokerConnectionClose, TeardownCall.QualityClientStop,
         TeardownCall.ServiceFirewallTeardown, TeardownCall.firewallReset,
         TeardownCall.NodeKill, TeardownCall.StorageClose] ∧
    (Shutdown TeardownOutcomes.allSucceed fullyPopulated).calls.map TeardownCall.phase
      = [1, 3, 2, 2, 2, 2, 3, 3, 4, 5] ∧
    ¬ List.Pairwise (fun a b => a ≤ b)
        ((Shutdown TeardownOutcomes.allSucceed fullyPopulated).calls.map TeardownCall.phase) := by
  refine ⟨rfl, rfl, ?_⟩
  have h : (Shutdown TeardownOutcomes.allSucceed fullyPopulated).calls.map TeardownCall.phase
      = [1, 3, 2, 2, 2, 2, 3, 3, 4, 5] := rfl
  rw [h]
  decide

/-- C16, amended: with every handle populated, whatever the teardown steps
return, the calls are, in order, ServicesManager.Kill, PolicyOracle.Stop,
NATService.Disable, DiscoveryWorker.Stop, BrokerConnection.Close,
QualityClient.Stop, ServiceFirewall.Teardown, firewall.Reset, Node.Kill,
Storage.Close: the phase order of the spec holds for all calls other than
PolicyOracle.Stop, which is made right after ServicesManager.Kill. -/
theorem Shutdown_full_order (out : TeardownOutcomes) (di : Dependencies)
    (h : di.populated
      = { ServicesManager := true, PolicyOracle := true, NATService := true,
          DiscoveryWorker := true, BrokerConnection := true, QualityClient := true,
          ServiceFirewall := true, Node := true, Storage := true }) :
    (Shutdown out di).calls
      = [TeardownCall.ServicesManagerKill, TeardownCall.PolicyOracleStop,
         TeardownCall.NATServiceDisable, TeardownCall.DiscoveryWorkerStop,
         TeardownCall.BrokerConnectionClose, TeardownCall.QualityClientStop,
         TeardownCall.ServiceFirewallTeardown, TeardownCall.firewallReset,
         TeardownCall.NodeKill, TeardownCall.StorageClose] ∧
    List.Pairwise (fun a b => a ≤ b)
      (((Shutdown out di).calls.erase TeardownCall.PolicyOracleStop).map TeardownCall.phase) := by
  rw [Shutdown_calls, h]
  refine ⟨rfl, ?_⟩
  have hp : (List.erase (teardownPlan
      { ServicesManager := true, PolicyOracle := true, NATService := true,
        DiscoveryWorker := true, BrokerConnection := true, QualityClient := true,
        ServiceFirewall := true, Node := true, Storage := true })
      TeardownCall.PolicyOracleStop).map TeardownCall.phase = [1, 2, 2, 2, 2, 3, 3, 4, 5] := rfl
  rw [hp]
  decide

/-- C16, amended, at a concrete input: the fully populated container with every
error-returning step failing. -/
theorem Shutdown_full_order_witness :
    fullyPopulated.populated
      = { ServicesManager := true, PolicyOracle := true, NATService := true,
          DiscoveryWorker := true, BrokerConnection := true, QualityClient := true,
          ServiceFirewall := true, Node := true, Storage := true } ∧
    (Shutdown { ServicesManagerKill := some { msg := "kill" },
                NATServiceDisable := some { msg := "disable" },
                NodeKill := some { msg := "node" },
                StorageClose := some { msg := "close" } } fullyPopulated).calls
      = [TeardownCall.ServicesManagerKill, TeardownCall.PolicyOracleStop,
         TeardownCall.NATServiceDisable, TeardownCall.DiscoveryWorkerStop,
         TeardownCall.BrokerConnectionClose, TeardownCall.QualityClientStop,
         TeardownCall.ServiceFirewallTeardown, TeardownCall.firewallReset,
         TeardownCall.NodeKill, TeardownCall.StorageClose] :=
  ⟨rfl, (Shutdown_full_order _ fullyPopulated rfl).1⟩

/-- C17: for every container whose Storage handle is populated, whatever the
teardown steps return, the calls of `Shutdown` are the calls it makes on the
same container without the storage, followed by Storage.Close, and Storage.Close
is not among the former: it is the last call, made once, after every other
teardown. -/
theorem Shutdown_closes_storage_last (out : TeardownOutcomes) (di : Dependencies)
    (h : di.Storage.isSome = true) :
    (Shutdown out di).calls
      = (Shutdown out { di with Storage := none }).calls ++ [TeardownCall.StorageClose] ∧
    TeardownCall.StorageClose ∉ (Shutdown out { di with Storage := none }).calls ∧
    (Shutdown out di).calls.getLast? = some TeardownCall.StorageClose := by
  have h1 : (Shutdown out di).calls
      = (Shutdown out { di with Storage := none }).calls ++ [TeardownCall.StorageClose] := by
    rw [Shutdown_calls, Shutdown_calls]
    simp [teardownPlan, Dependencies.populated, h, callIf]
  have h2 : TeardownCall.StorageClose ∉ (Shutdown out { di with Storage := none }).calls := by
    rw [Shutdown_calls]
    simp [teardownPlan, Dependencies.populated, mem_callIf]
  refine ⟨h1, h2, ?_⟩
  rw [h1]
  simp

/-- C17, at a concrete input: the fully populated container with a failing
Node.Kill and a failing Storage.Close. -/
theorem Shutdown_closes_storage_last_witness :
    fullyPopulated.Storage.isSome = true ∧
    (Shutdown { ServicesManagerKill := none, NATServiceDisable := none,
                NodeKill := some { msg := "node" },
                StorageClose := some { msg := "close" } } fullyPopulated).calls.getLast?
      = some TeardownCall.StorageClose :=
  ⟨rfl, (Shutdown_closes_storage_last _ fullyPopulated rfl).2.2⟩

/-! ## Theorems: the step sequence of `Bootstrap` -/

theorem runSteps_nil (di : Dependencies) (listener : Option Handle) :
    runSteps [] di listener = { di := di, records := [], err := none } := rfl

/-- A step that fails ends the run. -/
theorem runSteps_cons_fail (s : Step) (f : StageState → StageResult)
    (rest : List (Step × (StageState → StageResult))) (di : Dependencies)
    (listener : Option Handle) (err : Error)
    (h : (f { di := di, tequilaListener := listener, events := [] }).2 = some err) :
    runSteps ((s, f) :: rest) di listener
      = { di := (f { di := di, tequilaListener := listener, events := [] }).1.di,
          records := [{ step := s,
                        events := (f { di := di, tequilaListener := listener,
                                       events := [] }).1.events,
                        err := some err }],
          err := some err } := by
  simp only [runSteps, h]

/-- A step that succeeds is followed by the rest of the run. -/
theorem runSteps_cons_ok (s : Step) (f : StageState → StageResult)
    (rest : List (Step × (StageState → StageResult))) (di : Dependencies)
    (listener : Option Handle)
    (h : (f { di := di, tequilaListener := listener, events := [] }).2 = none) :
    runSteps ((s, f) :: rest) di listener
      = { di := (runSteps rest (f { di := di, tequilaListener := listener, events := [] }).1.di
                  (f { di := di, tequilaListener := listener,
                       events := [] }).1.tequilaListener).di,
          records :=
            { step := s,
              events := (f { di := di, tequilaListener := listener, events := [] }).1.events,
              err := none } ::
            (runSteps rest (f { di := di, tequilaListener := listener, events := [] }).1.di
              (f { di := di, tequilaListener := listener,
                   events := [] }).1.tequilaListener).records,
          err := (runSteps rest (f { di := di, tequilaListener := listener, events := [] }).1.di
                  (f { di := di, tequilaListener := listener,
                       events := [] }).1.tequilaListener).err } := by
  simp only [runSteps, h]

/-- The shape of every run: the executed steps are an initial segment of the
list, every executed step but the last returned nil, the run returns what the
last executed step returned, and it returns nil exactly when all steps were
executed and all returned nil. -/
theorem runSteps_records (l : List (Step × (StageState → StageResult))) (di : Dependencies)
    (listener : Option Handle) :
    ((runSteps l di listener).records.map (fun rec => rec.step)) <+: (l.map Prod.fst) ∧
    (∀ rec ∈ (runSteps l di listener).records.dropLast, rec.err = none) ∧
    (runSteps l di listener).err
      = (runSteps l di listener).records.getLast?.bind (fun rec => rec.err) ∧
    ((runSteps l di listener).err = none ↔
      ((runSteps l di listener).records.map (fun rec => rec.step) = l.map Prod.fst ∧
       ∀ rec ∈ (runSteps l di listener).records, rec.err = none)) := by
  induction l generalizing di listener with
  | nil => simp [runSteps_nil]
  | cons sf rest ih =>
    obtain ⟨s, f⟩ := sf
    cases h : (f { di := di, tequilaListener := listener, events := [] }).2 with
    | some err =>
      rw [runSteps_cons_fail s f rest di listener err h]
      refine ⟨?_, ?_, ?_, ?_⟩
      · simp [List.prefix_cons_inj, List.nil_prefix]
      · simp
      · simp
      · simp
    | none =>
      rw [runSteps_cons_ok s f rest di listener h]
      obtain ⟨h1, h2, h3, h4⟩ :=
        ih (f { di := di, tequilaListener := listener, events := [] }).1.di
          (f { di := di, tequilaListener := listener, events := [] }).1.tequilaListener
      generalize runSteps rest
        (f { di := di, tequilaListener := listener, events := [] }).1.di
        (f { di := di, tequilaListener := listener, events := [] }).1.tequilaListener = out
        at h1 h2 h3 h4
      refine ⟨?_, ?_, ?_, ?_⟩
      · simpa [List.prefix_cons_inj] using h1
      · intro rec hrec
        cases hout : out.records with
        | nil => simp [hout] at hrec
        | cons r rs =>
          simp only [hout, List.dropLast_cons₂, List.mem_cons] at hrec
          rcases hrec with rfl | hrec
          · rfl
          · exact h2 rec (by simpa [hout] using hrec)
      · cases hout : out.records with
        | nil => simp [hout] at h3 ⊢; exact h3
        | cons r rs =>
          simp only [hout, List.getLast?_cons_cons]
          rw [h3, hout]
      · rw [h4]
        simp

/-- Every record of a run was produced by the function of its step, started
without events. -/
theorem runSteps_provenance (l : List (Step × (StageState → StageResult))) (di : Dependencies)
    (listener : Option Handle) :
    ∀ rec ∈ (runSteps l di listener).records,
      ∃ f st, (rec.step, f) ∈ l ∧ st.events = [] ∧
        rec.events = (f st).1.events ∧ rec.err = (f st).2 := by
  induction l generalizing di listener with
  | nil => simp [runSteps_nil]
  | cons sf rest ih =>
    obtain ⟨s, f⟩ := sf
    intro rec hrec
    cases h : (f { di := di, tequilaListener := listener, events := [] }).2 with
    | some err =>
      rw [runSteps_cons_fail s f rest di listener err h] at hrec
      simp only [List.mem_singleton] at hrec
      subst hrec
      exact ⟨f, { di := di, tequilaListener := listener, events := [] },
        List.mem_cons_self _ _, rfl, rfl, h.symm⟩
    | none =>
      rw [runSteps_cons_ok s f rest di listener h] at hrec
      simp only [List.mem_cons] at hrec
      rcases hrec with rfl | hrec
      · exact ⟨f, { di := di, tequilaListener := listener, events := [] },
          List.mem_cons_self _ _, rfl, rfl, h.symm⟩
      · obtain ⟨g, st, hmem, hst, hev, herr⟩ := ih _ _ rec hrec
        exact ⟨g, st, List.mem_cons_of_mem _ hmem, hst, hev, herr⟩

/-- The steps of `Bootstrap` are listed in the order `stepOrder`. -/
theorem bootstrapSteps_order (md : Metadata) (cfg : Config) (env : BootOutcomes)
    (nodeOptions : Options) :
    (bootstrapSteps md cfg env nodeOptions).map Prod.fst = stepOrder := rfl

/-- C12: in every run of `Bootstrap` the executed steps are an initial segment
of the step order (listener acquisition, directory check, firewall, event bus,
storage, network, identity, discovery, location, authenticator, UI server, MMN,
NAT, P2P, services, quality, node components, connection registration, watcher
subscription, node start, event publishing); every executed step but the last
returned nil, and `Bootstrap` returns what the last executed step returned: a
step that returns an error is the last one executed and `Bootstrap` returns an
error. `Bootstrap` returns nil exactly when every step was executed and returned
nil. In particular, when the API is enabled and binding its port fails,
`Bootstrap` returns after the listener step with the wrapped bind error: only
the broker connector and the HTTP client have been assigned, and ServiceFirewall,
EventBus and Storage are left as they were, unpopulated if the container was
empty. -/
theorem Bootstrap_stops_at_first_failure (md : Metadata) (cfg : Config) (env : BootOutcomes)
    (nodeOptions : Options) (di : Dependencies) (listener : Option Handle) (bindErr : Error) :
    ((Bootstrap md cfg env nodeOptions di).records.map (fun rec => rec.step)) <+: stepOrder ∧
    (∀ rec ∈ (Bootstrap md cfg env nodeOptions di).records.dropLast, rec.err = none) ∧
    (Bootstrap md cfg env nodeOptions di).err
      = (Bootstrap md cfg env nodeOptions di).records.getLast?.bind (fun rec => rec.err) ∧
    ((Bootstrap md cfg env nodeOptions di).err = none ↔
      ((Bootstrap md cfg env nodeOptions di).records.map (fun rec => rec.step) = stepOrder ∧
       ∀ rec ∈ (Bootstrap md cfg env nodeOptions di).records, rec.err = none)) ∧
    Bootstrap md cfg { env with netListen := (listener, some bindErr) }
        { nodeOptions with TequilapiEnabled := true } di
      = { di := { di with BrokerConnector := some Field.BrokerConnector.component,
                          HTTPClient := some Field.HTTPClient.component },
          records :=
            [{ step := Step.setup,
               events := [StageEvent.assign Field.BrokerConnector
                            (some Field.BrokerConnector.component),
                          StageEvent.assign Field.HTTPClient
                            (some Field.HTTPClient.component)],
               err := none },
             { step := Step.createTequilaListener,
               events := [],
               err := some (bindErr.Wrap (portTakenMessage nodeOptions.TequilapiPort)) }],
          err := some (bindErr.Wrap (portTakenMessage nodeOptions.TequilapiPort)) } ∧
    (Bootstrap md cfg { env with netListen := (listener, some bindErr) }
        { nodeOptions with TequilapiEnabled := true } Dependencies.empty).di.ServiceFirewall
      = none ∧
    (Bootstrap md cfg { env with netListen := (listener, some bindErr) }
        { nodeOptions with TequilapiEnabled := true } Dependencies.empty).di.EventBus
      = none ∧
    (Bootstrap md cfg { env with netListen := (listener, some bindErr) }
        { nodeOptions with TequilapiEnabled := true } Dependencies.empty).di.Storage
      = none := by
  have h := runSteps_records (bootstrapSteps md cfg env nodeOptions) di none
  rw [bootstrapSteps_order] at h
  exact ⟨h.1, h.2.1, h.2.2.1, h.2.2.2, rfl, rfl, rfl, rfl⟩

/-- C13, counterexample: the same underlying error, raised once by the storage
stage (opening the storage) and once by the network stage (its first firewall
exception), gives the same error of `Bootstrap`, although the failing stages
differ. -/
theorem Bootstrap_same_error_from_two_stages :
    (Bootstrap Metadata.sample Config.sample
        { BootOutcomes.allSucceed with NewStorage := some { msg := "permission denied" } }
        Options.sample Dependencies.empty).err = some { msg := "permission denied" } ∧
    (Bootstrap Metadata.sample Config.sample
        { BootOutcomes.allSucceed with NewStorage := some { msg := "permission denied" } }
        Options.sample Dependencies.empty).records.getLast?.map (fun rec => rec.step)
      = some Step.bootstrapStorage ∧
    (Bootstrap Metadata.sample Config.sample
        { BootOutcomes.allSucceed with
            NetworkFirewallAllow := some { msg := "permission denied" } }
        Options.sample Dependencies.empty).err = some { msg := "permission denied" } ∧
    (Bootstrap Metadata.sample Config.sample
        { BootOutcomes.allSucceed with
            NetworkFirewallAllow := some { msg := "permission denied" } }
        Options.sample Dependencies.empty).records.getLast?.map (fun rec => rec.step)
      = some Step.bootstrapNetworkComponents := by
  refine ⟨rfl, rfl, rfl, rfl⟩

/-- The context some stages add to particular failures themselves, each named
after the failed operation: a failed bind of the API port is wrapped with the
message naming the port; in the location stage the two firewall exceptions for
the IP detector are wrapped with "failed to add firewall exception", while the
two firewall exceptions for the oracle address are returned as they are; in the
node components stage a failed subscription of the consumer balance tracker is
wrapped with its own message. -/
theorem stage_errors_with_added_context (env : BootOutcomes) (nodeOptions : Options)
    (e : Error) (listener : Option Handle) (st : StageState) :
    (createTequilaListener { env with netListen := (listener, some e) }
        { nodeOptions with TequilapiEnabled := true } st).2
      = some { msg := portTakenMessage nodeOptions.TequilapiPort ++ ": " ++ e.msg } ∧
    (bootstrapLocationComponents { env with LocationFirewallAllow := some e } nodeOptions st).2
      = some { msg := "failed to add firewall exception: " ++ e.msg } ∧
    (bootstrapLocationComponents
        { env with LocationFirewallAllow := none, LocationServiceFirewallAllow := some e }
        nodeOptions st).2
      = some { msg := "failed to add firewall exception: " ++ e.msg } ∧
    (bootstrapLocationComponents
        { env with LocationFirewallAllow := none, LocationServiceFirewallAllow := none,
                   OracleFirewallAllow := some e }
        { nodeOptions with Location := { Typ := LocationType.Oracle } } st).2 = some e ∧
    (bootstrapLocationComponents
        { env with LocationFirewallAllow := none, LocationServiceFirewallAllow := none,
                   OracleFirewallAllow := none, OracleServiceFirewallAllow := some e }
        { nodeOptions with Location := { Typ := LocationType.Oracle } } st).2 = some e ∧
    (bootstrapNodeComponents
        { env with BandwidthTrackerSubscribe := none, StatisticsReporterSubscribe := none,
                   bootstrapAccountantPromiseSettler :=
                     { env.bootstrapAccountantPromiseSettler with err := none },
                   bootstrapProviderRegistrar :=
                     { env.bootstrapProviderRegistrar with err := none },
                   ConsumerBalanceTrackerSubscribe := some e }
        nodeOptions st).2
      = some { msg := "could not subscribe consumer balance tracker to relevant events: "
                       ++ e.msg } := by
  refine ⟨rfl, rfl, rfl, rfl, rfl, rfl⟩

/-- C13, amended: whenever a step of `Bootstrap` fails, the error `Bootstrap`
returns is exactly the error that step returned: `Bootstrap` does not wrap it
with the identity of the failing stage. So the same underlying error raised by
two different stages yields the same error of `Bootstrap`: for every error `e`,
the run in which opening the storage fails with `e` and the run in which the
first firewall exception of the network stage fails with `e` both return `e`,
the first ending in the storage stage and the second in the network stage. -/
theorem Bootstrap_returns_stage_error_as_is (md : Metadata) (cfg : Config) (env : BootOutcomes)
    (nodeOptions : Options) (di : Dependencies) (e : Error) :
    (Bootstrap md cfg env nodeOptions di).err
      = (Bootstrap md cfg env nodeOptions di).records.getLast?.bind (fun rec => rec.err) ∧
    (Bootstrap md cfg { BootOutcomes.allSucceed with NewStorage := some e } nodeOptions di).err
      = some e ∧
    (Bootstrap md cfg { BootOutcomes.allSucceed with NewStorage := some e } nodeOptions
        di).records.getLast?.map (fun rec => rec.step) = some Step.bootstrapStorage ∧
    (Bootstrap md cfg { BootOutcomes.allSucceed with NetworkFirewallAllow := some e }
        nodeOptions di).err = some e ∧
    (Bootstrap md cfg { BootOutcomes.allSucceed with NetworkFirewallAllow := some e }
        nodeOptions di).records.getLast?.map (fun rec => rec.step)
      = some Step.bootstrapNetworkComponents := by
  refine ⟨(runSteps_records (bootstrapSteps md cfg env nodeOptions) di none).2.2.1,
    ?_, ?_, ?_, ?_⟩ <;>
  · obtain ⟨enabled, port, ⟨block⟩, net, loc, nat, q⟩ := nodeOptions
    cases enabled <;> cases block <;> rfl

/-- C14, evaluated: in the run of `Bootstrap` from the empty container in which
every collaborator call succeeds, `Bootstrap` returns nil, and exactly one read
finds its handle unpopulated: the quality stage reads `di.ConnectionManager`,
to hand it to `quality.NewSender`, while it is still nil. The connection manager
is assigned only later, by `bootstrapNodeComponents`. The other handles the
quality stage reads (ServiceFirewall, QualityClient, LocationResolver, EventBus,
IPResolver) are populated. -/
theorem Bootstrap_quality_reads_nil_ConnectionManager :
    (Bootstrap Metadata.sample Config.sample BootOutcomes.allSucceed Options.sample
        Dependencies.empty).err = none ∧
    unpopulatedReads
        (Bootstrap Metadata.sample Config.sample BootOutcomes.allSucceed Options.sample
          Dependencies.empty).records
      = [(Step.bootstrapQualityComponents, Field.ConnectionManager)] ∧
    ((Bootstrap Metadata.sample Config.sample BootOutcomes.allSucceed Options.sample
        Dependencies.empty).records.filter
          (fun rec => rec.step = Step.bootstrapQualityComponents)).map (fun rec => rec.events)
      = [[StageEvent.read Field.ServiceFirewall true,
          StageEvent.assign Field.QualityClient (some Field.QualityClient.component),
          StageEvent.read Field.QualityClient true,
          StageEvent.read Field.ConnectionManager false,
          StageEvent.read Field.LocationResolver true,
          StageEvent.read Field.EventBus true,
          StageEvent.read Field.IPResolver true,
          StageEvent.read Field.EventBus true]] ∧
    ((Bootstrap Metadata.sample Config.sample BootOutcomes.allSucceed Options.sample
        Dependencies.empty).records.filter
          (fun rec => decide (StageEvent.assign Field.ConnectionManager
            (some Field.ConnectionManager.component) ∈ rec.events))).map (fun rec => rec.step)
      = [Step.bootstrapNodeComponents] := by
  refine ⟨rfl, ?_, ?_, ?_⟩
  · decide
  · decide
  · decide

/-- The functions of the steps before the network stage assign none of the three
network clients. -/
theorem stepsBeforeNetwork_assign_no_network_client (md : Metadata) (cfg : Config)
    (env : BootOutcomes) (nodeOptions : Options) (s : Step) (f : StageState → StageResult)
    (hmem : (s, f) ∈ bootstrapSteps md cfg env nodeOptions) (hs : s ∈ stepsBeforeNetwork)
    (st : StageState) (hst : st.events = []) :
    ∀ ev ∈ (f st).1.events, ev.assignsNetworkClient = false := by
  simp only [bootstrapSteps, List.mem_cons, List.mem_singleton, Prod.mk.injEq,
    List.not_mem_nil, or_false] at hmem
  simp only [stepsBeforeNetwork, List.mem_cons, List.mem_singleton, List.not_mem_nil,
    or_false] at hs
  rcases hs with rfl | rfl | rfl | rfl | rfl | rfl
  · have hf : f = bootstrapSetup := by simpa using hmem
    subst hf
    intro ev hev
    simp [bootstrapSetup, StageState.construct, StageState.assign, StageState.ok, hst] at hev
    rcases hev with rfl | rfl <;> rfl
  · have hf : f = createTequilaListener env nodeOptions := by simpa using hmem
    subst hf
    intro ev hev
    unfold createTequilaListener at hev
    split at hev
    · simp [hst] at hev
    · split at hev <;> simp [hst] at hev
  · have hf : f = directoriesCheck env := by simpa using hmem
    subst hf
    intro ev hev
    simp [directoriesCheck, StageState.returning, hst] at hev
  · have hf : f = bootstrapFirewall env nodeOptions.Firewall := by simpa using hmem
    subst hf
    intro ev hev
    unfold bootstrapFirewall at hev
    repeat' split at hev
    all_goals
      simp [StageState.construct, StageState.assign, StageState.read, StageState.ok,
        StageState.fail, StageState.returning, hst] at hev
    all_goals
      rcases hev with rfl | rfl | rfl <;> rfl
  · have hf : f = bootstrapEventBus := by simpa using hmem
    subst hf
    intro ev hev
    simp [bootstrapEventBus, StageState.construct, StageState.assign, StageState.ok, hst] at hev
    subst hev
    rfl
  · have hf : f = bootstrapStorage env := by simpa using hmem
    subst hf
    intro ev hev
    unfold bootstrapStorage at hev
    repeat' split at hev
    all_goals
      simp [StageState.construct, StageState.assign, StageState.read, StageState.ok,
        StageState.fail, StageState.returning, hst] at hev
    all_goals
      rcases hev with rfl | rfl | rfl | rfl | rfl | rfl | rfl | rfl | rfl | rfl | rfl | rfl <;> rfl

/-- A network stage that returned nil has assigned the three network clients. -/
theorem bootstrapNetworkComponents_assigns_clients (md : Metadata) (env : BootOutcomes)
    (nodeOptions : Options) (st : StageState)
    (h : (bootstrapNetworkComponents md env nodeOptions st).2 = none) :
    StageEvent.assign Field.MysteriumAPI (some Field.MysteriumAPI.component)
      ∈ (bootstrapNetworkComponents md env nodeOptions st).1.events ∧
    StageEvent.assign Field.BrokerConnection env.BrokerConnect.1
      ∈ (bootstrapNetworkComponents md env nodeOptions st).1.events ∧
    StageEvent.assign Field.EtherClient env.NewReconnectableEthClient.1
      ∈ (bootstrapNetworkComponents md env nodeOptions st).1.events := by
  unfold bootstrapNetworkComponents at h ⊢
  repeat' split at h
  all_goals first
    | (simp [StageState.fail] at h; done)
    | simp_all [StageState.construct, StageState.assign, StageState.read, StageState.ok,
        StageState.fail, StageState.returning]

/-- C15, counterexample: in the run in which opening the storage fails, the
first step has constructed the broker connector and the HTTP client before the
firewall stage, the fourth step, has run. -/
theorem Bootstrap_constructs_HTTPClient_before_firewall :
    (Bootstrap Metadata.sample Config.sample
        { BootOutcomes.allSucceed with NewStorage := some { msg := "locked" } }
        Options.sample Dependencies.empty).records.map (fun rec => (rec.step, rec.events))
      = [(Step.setup,
          [StageEvent.assign Field.BrokerConnector (some Field.BrokerConnector.component),
           StageEvent.assign Field.HTTPClient (some Field.HTTPClient.component)]),
         (Step.createTequilaListener, []),
         (Step.directoriesCheck, []),
         (Step.bootstrapFirewall,
          [StageEvent.assign Field.ServiceFirewall (some Field.ServiceFirewall.component),
           StageEvent.read Field.ServiceFirewall true]),
         (Step.bootstrapEventBus,
          [StageEvent.assign Field.EventBus (some Field.EventBus.component)]),
         (Step.bootstrapStorage, [])] := by
  decide

/-- C15, amended: in every run of `Bootstrap` the broker connector and the HTTP
client are constructed by the first statements, before the firewall stage. The
Mysterium API client, the broker connection and the Ethereum client are
assigned by no step up to the network stage (setup, listener, directory check,
firewall, event bus, storage); the steps run in the step order, each only after
the one before it returned nil, so the network stage runs only after the
firewall stage has completed; and a network stage that returns nil has assigned
all three. -/
theorem Bootstrap_firewall_before_network_clients (md : Metadata) (cfg : Config)
    (env : BootOutcomes) (nodeOptions : Options) (di : Dependencies) :
    (Bootstrap md cfg env nodeOptions di).records.head?
      = some { step := Step.setup,
               events := [StageEvent.assign Field.BrokerConnector
                            (some Field.BrokerConnector.component),
                          StageEvent.assign Field.HTTPClient
                            (some Field.HTTPClient.component)],
               err := none } ∧
    ((Bootstrap md cfg env nodeOptions di).records.map (fun rec => rec.step)) <+: stepOrder ∧
    (∀ rec ∈ (Bootstrap md cfg env nodeOptions di).records.dropLast, rec.err = none) ∧
    (∀ rec ∈ (Bootstrap md cfg env nodeOptions di).records,
      rec.step ∈ stepsBeforeNetwork →
      ∀ ev ∈ rec.events, ev.assignsNetworkClient = false) ∧
    (∀ rec ∈ (Bootstrap md cfg env nodeOptions di).records,
      rec.step = Step.bootstrapNetworkComponents → rec.err = none →
      StageEvent.assign Field.MysteriumAPI (some Field.MysteriumAPI.component) ∈ rec.events ∧
      StageEvent.assign Field.BrokerConnection env.BrokerConnect.1 ∈ rec.events ∧
      StageEvent.assign Field.EtherClient env.NewReconnectableEthClient.1 ∈ rec.events) := by
  have h := runSteps_records (bootstrapSteps md cfg env nodeOptions) di none
  rw [bootstrapSteps_order] at h
  refine ⟨?_, h.1, h.2.1, ?_, ?_⟩
  · unfold Bootstrap bootstrapSteps
    rw [runSteps_cons_ok _ _ _ _ _ rfl]
    rfl
  · intro rec hrec hstep
    obtain ⟨f, st, hmem, hst, hev, _⟩ :=
      runSteps_provenance (bootstrapSteps md cfg env nodeOptions) di none rec hrec
    rw [hev]
    exact stepsBeforeNetwork_assign_no_network_client md cfg env nodeOptions rec.step f hmem
      hstep st hst
  · intro rec hrec hstep herr
    obtain ⟨f, st, hmem, hst, hev, herr2⟩ :=
      runSteps_provenance (bootstrapSteps md cfg env nodeOptions) di none rec hrec
    rw [hstep] at hmem
    have hf : f = bootstrapNetworkComponents md env nodeOptions := by
      simpa [bootstrapSteps] using hmem
    subst hf
    rw [hev]
    exact bootstrapNetworkComponents_assigns_clients md env nodeOptions st (herr2 ▸ herr)

/-! ## Theorems: what a failed stage leaves behind; the network definition -/

/-- C18, counterexample: when the subscription of the session storage fails,
`Bootstrap` returns that error from the storage stage, and the Storage handle
(like the other four handles the stage assigns) is populated although its stage
did not complete successfully. -/
theorem Bootstrap_failed_storage_stage_leaves_Storage :
    (Bootstrap Metadata.sample Config.sample
        { BootOutcomes.allSucceed with SessionStorageSubscribe := some { msg := "closed bus" } }
        Options.sample Dependencies.empty).err = some { msg := "closed bus" } ∧
    (Bootstrap Metadata.sample Config.sample
        { BootOutcomes.allSucceed with SessionStorageSubscribe := some { msg := "closed bus" } }
        Options.sample Dependencies.empty).records.getLast?.map (fun rec => rec.step)
      = some Step.bootstrapStorage ∧
    (Bootstrap Metadata.sample Config.sample
        { BootOutcomes.allSucceed with SessionStorageSubscribe := some { msg := "closed bus" } }
        Options.sample Dependencies.empty).di.Storage = some Field.Storage.component ∧
    (Bootstrap Metadata.sample Config.sample
        { BootOutcomes.allSucceed with SessionStorageSubscribe := some { msg := "closed bus" } }
        Options.sample Dependencies.empty).di.SessionStorage
      = some Field.SessionStorage.component := by
  refine ⟨rfl, rfl, rfl, rfl⟩

/-- C18, amended: `Bootstrap` rolls nothing back. A stage that returns an error
leaves populated the handles it assigned before failing: the storage stage whose
subscription fails returns that error with Storage, ProviderInvoiceStorage,
ConsumerTotalsStorage, AccountantPromiseStorage and SessionStorage populated,
and the quality stage, on a transport type it does not know, returns its error
with QualityClient populated. A stage that fails before its first assignment
leaves the container as it was (the storage stage when opening or migrating
fails, the quality stage when its first firewall exception fails). In the run
from the empty container in which the storage subscription fails, the handles
populated at the end are exactly those assigned up to that point (broker
connector, HTTP client, service firewall, event bus and the five of the storage
stage); the handles of later stages are unpopulated. -/
theorem Bootstrap_keeps_assignments_of_failed_stage (md : Metadata) (cfg : Config)
    (env : BootOutcomes) (nodeOptions : Options) (st : StageState) (e : Error)
    (name : String) :
    ((bootstrapStorage
        { env with NewStorage := none, RunMigrations := none,
                   SessionStorageSubscribe := some e } st).2 = some e ∧
     (bootstrapStorage
        { env with NewStorage := none, RunMigrations := none,
                   SessionStorageSubscribe := some e } st).1.di
       = { st.di with Storage := some Field.Storage.component,
                      ProviderInvoiceStorage := some Field.ProviderInvoiceStorage.component,
                      ConsumerTotalsStorage := some Field.ConsumerTotalsStorage.component,
                      AccountantPromiseStorage :=
                        some Field.AccountantPromiseStorage.component,
                      SessionStorage := some Field.SessionStorage.component }) ∧
    bootstrapStorage { env with NewStorage := some e } st = (st, some e) ∧
    bootstrapStorage { env with NewStorage := none, RunMigrations := some e } st
      = (st, some e) ∧
    ((bootstrapQualityComponents
        { env with QualityFirewallAllow := none, QualityServiceFirewallAllow := none }
        { Typ := QualityType.other name } st).2
       = some { msg := "unknown Quality Oracle provider: " ++ name } ∧
     (bootstrapQualityComponents
        { env with QualityFirewallAllow := none, QualityServiceFirewallAllow := none }
        { Typ := QualityType.other name } st).1.di
       = { st.di with QualityClient := some Field.QualityClient.component }) ∧
    bootstrapQualityComponents { env with QualityFirewallAllow := some e }
        nodeOptions.Quality st = (st, some e) ∧
    ((Bootstrap md cfg { BootOutcomes.allSucceed with SessionStorageSubscribe := some e }
        nodeOptions Dependencies.empty).err = some e ∧
     (Bootstrap md cfg { BootOutcomes.allSucceed with SessionStorageSubscribe := some e }
        nodeOptions Dependencies.empty).di
       = { Dependencies.empty with
             BrokerConnector := some Field.BrokerConnector.component,
             HTTPClient := some Field.HTTPClient.component,
             ServiceFirewall := some Field.ServiceFirewall.component,
             EventBus := some Field.EventBus.component,
             Storage := some Field.Storage.component,
             ProviderInvoiceStorage := some Field.ProviderInvoiceStorage.component,
             ConsumerTotalsStorage := some Field.ConsumerTotalsStorage.component,
             AccountantPromiseStorage := some Field.AccountantPromiseStorage.component,
             SessionStorage := some Field.SessionStorage.component }) := by
  refine ⟨⟨rfl, rfl⟩, rfl, rfl, ⟨rfl, rfl⟩, rfl, ?_⟩
  obtain ⟨enabled, port, ⟨block⟩, net, loc, nat, q⟩ := nodeOptions
  cases enabled <;> cases block <;> exact ⟨rfl, rfl⟩

theorem set_NetworkDefinition (di : Dependencies) (f : Field) (h : Option Handle) :
    (di.set f h).NetworkDefinition = di.NetworkDefinition := by
  cases f <;> rfl

theorem read_di (st : StageState) (f : Field) : (st.read f).di = st.di := rfl

theorem assign_NetworkDefinition (st : StageState) (f : Field) (h : Option Handle) :
    (st.assign f h).di.NetworkDefinition = st.di.NetworkDefinition :=
  set_NetworkDefinition st.di f h

theorem construct_NetworkDefinition (st : StageState) (f : Field) :
    (st.construct f).di.NetworkDefinition = st.di.NetworkDefinition :=
  set_NetworkDefinition st.di f _

/-- The network definition the source computes is the selected preset with the
three addresses overridden one by one. -/
theorem decideNetworkDefinition_eq (md : Metadata) (o : OptionsNetwork) :
    decideNetworkDefinition md o
      = { MysteriumAPIAddress :=
            overridden o.MysteriumAPIAddress md.DefaultNetwork.MysteriumAPIAddress
              (selectedPreset md o).MysteriumAPIAddress,
          BrokerAddress :=
            overridden o.BrokerAddress md.DefaultNetwork.BrokerAddress
              (selectedPreset md o).BrokerAddress,
          EtherClientRPC :=
            overridden o.EtherClientRPC md.DefaultNetwork.EtherClientRPC
              (selectedPreset md o).EtherClientRPC } := by
  unfold decideNetworkDefinition overridden selectedPreset
  obtain ⟨testnet, localnet, api, broker, eth⟩ := o
  cases testnet <;> cases localnet <;>
    by_cases h1 : api = md.DefaultNetwork.MysteriumAPIAddress <;>
    by_cases h2 : broker = md.DefaultNetwork.BrokerAddress <;>
    by_cases h3 : eth = md.DefaultNetwork.EtherClientRPC <;>
    simp [h1, h2, h3]

/-- C19: whatever its collaborator calls return, `bootstrapNetworkComponents`
leaves in `di.NetworkDefinition` the definition built from the testnet preset
when the Testnet flag is set, otherwise from the localnet preset when the
Localnet flag is set, otherwise from the default preset, in which each of
MysteriumAPIAddress, BrokerAddress and EtherClientRPC, independently of the
other two, is the option's value when that value differs from the default
preset's value for the field and the selected preset's value otherwise. -/
theorem bootstrapNetworkComponents_NetworkDefinition (md : Metadata) (env : BootOutcomes)
    (options : Options) (st : StageState) :
    (bootstrapNetworkComponents md env options st).1.di.NetworkDefinition
      = { MysteriumAPIAddress :=
            if options.OptionsNetwork.MysteriumAPIAddress
                ≠ md.DefaultNetwork.MysteriumAPIAddress
            then options.OptionsNetwork.MysteriumAPIAddress
            else (if options.OptionsNetwork.Testnet = true then md.TestnetDefinition
                  else if options.OptionsNetwork.Localnet = true then md.LocalnetDefinition
                  else md.DefaultNetwork).MysteriumAPIAddress,
          BrokerAddress :=
            if options.OptionsNetwork.BrokerAddress ≠ md.DefaultNetwork.BrokerAddress
            then options.OptionsNetwork.BrokerAddress
            else (if options.OptionsNetwork.Testnet = true then md.TestnetDefinition
                  else if options.OptionsNetwork.Localnet = true then md.LocalnetDefinition
                  else md.DefaultNetwork).BrokerAddress,
          EtherClientRPC :=
            if options.OptionsNetwork.EtherClientRPC ≠ md.DefaultNetwork.EtherClientRPC
            then options.OptionsNetwork.EtherClientRPC
            else (if options.OptionsNetwork.Testnet = true then md.TestnetDefinition
                  else if options.OptionsNetwork.Localnet = true then md.LocalnetDefinition
                  else md.DefaultNetwork).EtherClientRPC } := by
  have hd := decideNetworkDefinition_eq md options.OptionsNetwork
  unfold overridden selectedPreset at hd
  rw [← hd]
  unfold bootstrapNetworkComponents
  repeat' split
  all_goals
    simp only [StageState.fail, StageState.returning, read_di, assign_NetworkDefinition,
      construct_NetworkDefinition]

end Mysterium
